import Mathlib

/-!
# wormhole-explorer: shallow embedding of the wiring code

Sources embedded here:

* `analytics/config/config.go`            (namespace `AnalyticsConfig`)
* `api/handlers/governor/service.go`      (namespace `Governor`)
* `contract-watcher/builder/watcher.go`   (namespace `Builder`)
* `contract-watcher/cmd/service/run.go`   (namespace `Service`)

Go values are modelled by Lean structures, Go pointers that may be nil by
`Option`, Go slices by `List`, Go maps by association lists.  Object identity
(two limiters being the same instance) is modelled by an allocation counter
threaded through the constructors.  Construction code ends by returning, by a
fatal log (which exits the process) or by a panic: `ratelimit.New` panics for
the budget 0.
-/

set_option autoImplicit false

/-! ## analytics/config/config.go -/

namespace AnalyticsConfig

/-- Configuration represents the application configuration (config.go, lines 11-34). -/
structure Configuration where
  Environment : String
  LogLevel : String
  Port : String
  ConsumerMode : String
  AwsEndpoint : String
  AwsAccessKeyID : String
  AwsSecretAccessKey : String
  AwsRegion : String
  SQSUrl : String
  InfluxUrl : String
  InfluxToken : String
  InfluxOrganization : String
  InfluxBucketInfinite : String
  InfluxBucket30Days : String
  InfluxBucket24Hours : String
  MongodbURI : String
  MongodbDatabase : String
  PprofEnabled : Bool
  P2pNetwork : String
  CacheURL : String
  CachePrefix : String
  CacheChannel : String
  deriving DecidableEq, Repr

/-- The default declared in the struct tag of `ConsumerMode`:
`env:"CONSUMER_MODE,default=QUEUE"` (config.go, line 15). -/
def defaultConsumerMode : String := "QUEUE"

/-- IsQueueConsumer check if consumer mode is QUEUE (config.go, lines 49-51). -/
def Configuration.IsQueueConsumer (c : Configuration) : Bool :=
  c.ConsumerMode == "QUEUE"

end AnalyticsConfig

/-! ## api/handlers/governor/service.go -/

namespace Governor

/-- The Go type `vaa.ChainID` (an unsigned 16-bit integer in the wormhole SDK). -/
abbrev ChainID := Nat

/-- Go `error` values seen by the service: the sentinel `errs.ErrNotFound` and
whatever the repository returns. -/
inductive Error where
  | ErrNotFound
  | repo (msg : String)
  deriving DecidableEq, Repr

/-- The type `pagination.Pagination`; the service only passes it through. -/
structure Pagination where
  Skip : Int
  Limit : Int
  SortOrder : String
  deriving DecidableEq, Repr

/-- The query built by `QueryNotionalLimit().SetPagination(p).SetChain(chainID)`:
the builder calls are recorded as the fields they set.  `pagination` is the
pointer handed to `SetPagination` (`none` is nil, or never set). -/
structure NotionalLimitQuery where
  pagination : Option Pagination
  chainID : Option ChainID
  deriving DecidableEq, Repr

/-- QueryNotionalLimit() : a query with nothing set. -/
def QueryNotionalLimit : NotionalLimitQuery := { pagination := none, chainID := none }

/-- SetPagination on a notional-limit query. -/
def NotionalLimitQuery.SetPagination (q : NotionalLimitQuery) (p : Option Pagination) :
    NotionalLimitQuery := { q with pagination := p }

/-- SetChain on a notional-limit query. -/
def NotionalLimitQuery.SetChain (q : NotionalLimitQuery) (c : ChainID) :
    NotionalLimitQuery := { q with chainID := some c }

/-- The type `response.Response[T]`; the service sets only `Data`. -/
structure Response (α : Type) where
  Data : α
  deriving DecidableEq, Repr

/-- The type `EnqueuedVaaItem`: the three fields the service reads and the rest
of the record as carried data. -/
structure EnqueuedVaaItem where
  EmitterChain : ChainID
  EmitterAddress : String
  Sequence : String
  ReleaseTime : Int
  NotionalValue : Nat
  TxHash : String
  deriving DecidableEq, Repr

/-- A repository call, as recorded in the trace of a service method. -/
inductive RepoCall where
  | GetAvailableNotionalByChainID (q : NotionalLimitQuery)
  | GetMaxNotionalAvailableByChainID (q : NotionalLimitQuery)
  | GetEnqueuedVaas
  deriving DecidableEq, Repr

/-- The methods of `*Repository` used by the embedded service methods.  `D` is
the element type `*NotionalAvailableDetail`, `M` the type
`*MaxNotionalAvailableRecord`; each method returns its value and its error. -/
structure Repository (D M : Type) where
  GetAvailableNotionalByChainID : NotionalLimitQuery → List D × Option Error
  GetMaxNotionalAvailableByChainID : NotionalLimitQuery → M × Option Error
  GetEnqueuedVaas : List EnqueuedVaaItem × Option Error

/-- Service (service.go, lines 17-21); the logger is not used by the embedded
methods.  `supportedChainIDs` is the Go map `map[vaa.ChainID]string`. -/
structure Service (D M : Type) where
  repo : Repository D M
  supportedChainIDs : List (ChainID × String)

/-- NewService (service.go, lines 24-27): `supported` is the value of
`domain.GetSupportedChainIDs()`. -/
def NewService {D M : Type} (supported : List (ChainID × String)) (dao : Repository D M) :
    Service D M :=
  { repo := dao, supportedChainIDs := supported }

/-- The result of a service method: returned value (`none` is the nil pointer),
returned error (`none` is nil), and the repository calls it made, in order. -/
structure Outcome (α : Type) where
  value : Option α
  err : Option Error
  calls : List RepoCall

/-- GetAvailableNotionalByChainID (service.go, lines 117-126). -/
def Service.GetAvailableNotionalByChainID {D M : Type} (s : Service D M)
    (p : Option Pagination) (chainID : ChainID) : Outcome (Response (List D)) :=
  -- check if chainID is valid
  match s.supportedChainIDs.lookup chainID with
  | none => { value := none, err := some Error.ErrNotFound, calls := [] }
  | some _ =>
    let query := (QueryNotionalLimit.SetPagination p).SetChain chainID
    let r := s.repo.GetAvailableNotionalByChainID query
    let res : Response (List D) := { Data := r.1 }
    { value := some res, err := r.2, calls := [RepoCall.GetAvailableNotionalByChainID query] }

/-- GetMaxNotionalAvailableByChainID (service.go, lines 129-138). -/
def Service.GetMaxNotionalAvailableByChainID {D M : Type} (s : Service D M)
    (chainID : ChainID) : Outcome (Response M) :=
  -- check if chainID is valid
  match s.supportedChainIDs.lookup chainID with
  | none => { value := none, err := some Error.ErrNotFound, calls := [] }
  | some _ =>
    let query := QueryNotionalLimit.SetChain chainID
    let r := s.repo.GetMaxNotionalAvailableByChainID query
    let res : Response M := { Data := r.1 }
    { value := some res, err := r.2, calls := [RepoCall.GetMaxNotionalAvailableByChainID query] }

/-- The de-duplication key of an entry,
`fmt.Sprintf("%s/%s/%s", e.EmitterChain, e.EmitterAddress, e.Sequence)`
(service.go, line 196).  `chainString` is what the verb `%s` prints for a
`vaa.ChainID` (its `String()` method, from the wormhole SDK). -/
def enqueuedKey (chainString : ChainID → String) (e : EnqueuedVaaItem) : String :=
  chainString e.EmitterChain ++ "/" ++ e.EmitterAddress ++ "/" ++ e.Sequence

/-- One iteration of the loop of GetEnqueuedVaas (service.go, lines 194-201).
The state is `(result, existingEnqueuedVaa)`; the Go map `map[string]bool` only
ever holds `true`, so it is modelled by the list of its keys. -/
def dedupStep (chainString : ChainID → String)
    (st : List EnqueuedVaaItem × List String) (e : EnqueuedVaaItem) :
    List EnqueuedVaaItem × List String :=
  let key := enqueuedKey chainString e
  if key ∈ st.2 then st else (st.1 ++ [e], key :: st.2)

/-- The loop of GetEnqueuedVaas (service.go, lines 192-202). -/
def dedupEnqueued (chainString : ChainID → String) (entries : List EnqueuedVaaItem) :
    List EnqueuedVaaItem :=
  (entries.foldl (dedupStep chainString) ([], [])).1

/-- GetEnqueuedVaas (service.go, lines 187-203). -/
def Service.GetEnqueuedVaas {D M : Type} (s : Service D M) (chainString : ChainID → String) :
    Outcome (List EnqueuedVaaItem) :=
  let r := s.repo.GetEnqueuedVaas
  match r.2 with
  | some err => { value := none, err := some err, calls := [RepoCall.GetEnqueuedVaas] }
  | none =>
    { value := some (dedupEnqueued chainString r.1), err := none,
      calls := [RepoCall.GetEnqueuedVaas] }

end Governor

/-! ## contract-watcher: shared types -/

namespace Watcher

/-- The Go type `time.Duration`, in nanoseconds. -/
abbrev Duration := Int

/-- The constant `time.Second`. -/
def Second : Duration := 1000000000

/-- The Go type `vaa.ChainID`. -/
abbrev ChainID := Nat

/-- Handle of a `*zap.Logger`. -/
structure Logger where
  id : Nat
  deriving DecidableEq, Repr

/-- Handle of a `*storage.Repository`. -/
structure Repository where
  id : Nat
  deriving DecidableEq, Repr

/-- Handle of a `metrics.Metrics`. -/
structure Metrics where
  id : Nat
  deriving DecidableEq, Repr

/-- The type `config.BlockchainMethod`, the element of `MethodsByAddress`. -/
structure BlockchainMethod where
  ID : String
  Name : String
  deriving DecidableEq, Repr

/-- The type `config.WatcherBlockchain`: the single-address configuration, with
the fields the builders read. -/
structure WatcherBlockchain where
  ChainID : ChainID
  Name : String
  Address : String
  SizeBlocks : Nat
  WaitSeconds : Nat
  InitialBlock : Int
  deriving DecidableEq, Repr

/-- The type `config.WatcherBlockchainAddresses`: the address-set
configuration, with the fields the builders read. -/
structure WatcherBlockchainAddresses where
  ChainID : ChainID
  Name : String
  SizeBlocks : Nat
  WaitSeconds : Nat
  InitialBlock : Int
  MethodsByAddress : List (String × List BlockchainMethod)
  deriving DecidableEq, Repr

/-- A limiter made by `ratelimit.New(rate, ratelimit.Per(per))`.  `id` is the
identity of the instance: two limiters are the same object iff their ids are
equal. -/
structure Limiter where
  id : Nat
  rate : Int
  per : Duration
  deriving DecidableEq, Repr

/-- An option handed to a client constructor; the only one in the source is
`solana.WithRetries(attempts, delay)`. -/
inductive ClientOption where
  | WithRetries (attempts : Nat) (delay : Duration)
  deriving DecidableEq, Repr

/-- Which client constructor made a client. -/
inductive SDK where
  | Ankr
  | Solana
  | Terra
  | Aptos
  | Evm
  deriving DecidableEq, Repr

/-- A chain client as its constructor call: the constructor, its arguments in
order (url, limiter, metrics, options), and the identity of the instance. -/
structure Client where
  id : Nat
  sdk : SDK
  url : String
  limiter : Limiter
  metrics : Metrics
  opts : List ClientOption
  deriving DecidableEq, Repr

/-- A Solana public key: 32 bytes. -/
structure PublicKey where
  bytes : List Nat
  deriving DecidableEq, Repr

/-- The struct literal `watcher.EVMParams` as written in the source. -/
structure EVMParams where
  ChainID : ChainID
  Blockchain : String
  SizeBlocks : Nat
  WaitSeconds : Nat
  InitialBlock : Int
  MethodsByAddress : List (String × List BlockchainMethod)
  deriving DecidableEq, Repr

/-- The struct literal `watcher.SolanaParams` as written in the source. -/
structure SolanaParams where
  Blockchain : String
  ContractAddress : PublicKey
  SizeBlocks : Nat
  WaitSeconds : Nat
  InitialBlock : Int
  deriving DecidableEq, Repr

/-- The struct literal `watcher.TerraParams` as written in the source
(watcher.go, lines 44-45): it names no `SizeBlocks`. -/
structure TerraParams where
  ChainID : ChainID
  Blockchain : String
  ContractAddress : String
  WaitSeconds : Nat
  InitialBlock : Int
  deriving DecidableEq, Repr

/-- The struct literal `watcher.AptosParams` as written in the source. -/
structure AptosParams where
  Blockchain : String
  ContractAddress : String
  SizeBlocks : Nat
  WaitSeconds : Nat
  InitialBlock : Int
  deriving DecidableEq, Repr

/-- A `watcher.ContractWatcher`, as the constructor call that made it:
`NewEVMWatcher`, `NewSolanaWatcher`, `NewTerraWatcher`, `NewAptosWatcher`,
`NewEvmStandarWatcher`, each with its arguments. -/
inductive ContractWatcher where
  | NewEVMWatcher (client : Client) (repo : Repository) (params : EVMParams)
      (metrics : Metrics) (logger : Logger)
  | NewSolanaWatcher (client : Client) (repo : Repository) (params : SolanaParams)
      (metrics : Metrics) (logger : Logger)
  | NewTerraWatcher (client : Client) (params : TerraParams) (repo : Repository)
      (metrics : Metrics) (logger : Logger)
  | NewAptosWatcher (client : Client) (params : AptosParams) (repo : Repository)
      (metrics : Metrics) (logger : Logger)
  | NewEvmStandarWatcher (client : Client) (params : EVMParams) (repo : Repository)
      (metrics : Metrics) (logger : Logger)
  deriving DecidableEq, Repr

/-- The client a watcher was wired to. -/
def ContractWatcher.client : ContractWatcher → Client
  | .NewEVMWatcher c _ _ _ _ => c
  | .NewSolanaWatcher c _ _ _ _ => c
  | .NewTerraWatcher c _ _ _ _ => c
  | .NewAptosWatcher c _ _ _ _ => c
  | .NewEvmStandarWatcher c _ _ _ _ => c

/-- The limiter a watcher calls through: the one its client was built with. -/
def ContractWatcher.limiter (w : ContractWatcher) : Limiter := w.client.limiter

/-- The `Blockchain` field of a watcher parameters: the chain it watches. -/
def ContractWatcher.blockchain : ContractWatcher → String
  | .NewEVMWatcher _ _ p _ _ => p.Blockchain
  | .NewSolanaWatcher _ _ p _ _ => p.Blockchain
  | .NewTerraWatcher _ p _ _ _ => p.Blockchain
  | .NewAptosWatcher _ p _ _ _ => p.Blockchain
  | .NewEvmStandarWatcher _ p _ _ _ => p.Blockchain

/-- The `SizeBlocks` field of a watcher parameters, `none` where the struct
literal has none. -/
def ContractWatcher.sizeBlocks : ContractWatcher → Option Nat
  | .NewEVMWatcher _ _ p _ _ => some p.SizeBlocks
  | .NewSolanaWatcher _ _ p _ _ => some p.SizeBlocks
  | .NewTerraWatcher _ _ _ _ _ => none
  | .NewAptosWatcher _ p _ _ _ => some p.SizeBlocks
  | .NewEvmStandarWatcher _ p _ _ _ => some p.SizeBlocks

/-- The `WaitSeconds` field of a watcher parameters. -/
def ContractWatcher.waitSeconds : ContractWatcher → Nat
  | .NewEVMWatcher _ _ p _ _ => p.WaitSeconds
  | .NewSolanaWatcher _ _ p _ _ => p.WaitSeconds
  | .NewTerraWatcher _ p _ _ _ => p.WaitSeconds
  | .NewAptosWatcher _ p _ _ _ => p.WaitSeconds
  | .NewEvmStandarWatcher _ p _ _ _ => p.WaitSeconds

/-- The `InitialBlock` field of a watcher parameters. -/
def ContractWatcher.initialBlock : ContractWatcher → Int
  | .NewEVMWatcher _ _ p _ _ => p.InitialBlock
  | .NewSolanaWatcher _ _ p _ _ => p.InitialBlock
  | .NewTerraWatcher _ p _ _ _ => p.InitialBlock
  | .NewAptosWatcher _ p _ _ _ => p.InitialBlock
  | .NewEvmStandarWatcher _ p _ _ _ => p.InitialBlock

/-- True for the watchers made by `NewEVMWatcher` (the Ankr-backed EVM chains). -/
def ContractWatcher.isAnkr : ContractWatcher → Bool
  | .NewEVMWatcher _ _ _ _ _ => true
  | _ => false

/-- How a run of construction code ends: it returns a value, leaving the
allocation counter at `next`, or `logger.Fatal` ends the process (zap logs the
message and calls `os.Exit(1)`), or a call panics (a Go run-time panic with the
given message, which unwinds the callers). -/
inductive Result (α : Type) where
  | returned (a : α) (next : Nat)
  | fatal (msg : String)
  | panic (msg : String)
  deriving DecidableEq, Repr

/-- Construction code: a function of the allocation counter. -/
def Proc (α : Type) : Type := Nat → Result α

/-- Return a value without allocating. -/
def Proc.pure {α : Type} (a : α) : Proc α := fun n => Result.returned a n

/-- Sequencing: a fatal log or a panic ends the run, nothing after it is
executed. -/
def Proc.bind {α β : Type} (x : Proc α) (f : α → Proc β) : Proc β := fun n =>
  match x n with
  | Result.returned a n1 => f a n1
  | Result.fatal msg => Result.fatal msg
  | Result.panic msg => Result.panic msg

instance : Monad Proc where
  pure := Proc.pure
  bind := Proc.bind

/-- The call `logger.Fatal(msg, ...)`. -/
def Logger.Fatal {α : Type} (_logger : Logger) (msg : String) : Proc α :=
  fun _ => Result.fatal msg

/-- The message of the Go run-time panic of an integer division by zero. -/
def divideByZero : String := "runtime error: integer divide by zero"

/-- The call `ratelimit.New(rate, ratelimit.Per(per))`: a new limiter instance.
The library computes the time between two permits as `per / time.Duration(rate)`,
an integer division, so the call panics when `rate` is 0. -/
def ratelimitNew (rate : Int) (per : Duration) : Proc Limiter :=
  fun n =>
    if rate = 0 then Result.panic divideByZero
    else Result.returned { id := n, rate := rate, per := per } (n + 1)

/-- A client constructor call (`ankr.NewAnkrSDK`, `solana.NewSolanaSDK`, ...):
a new client instance holding the arguments. -/
def newSDK (sdk : SDK) (url : String) (limiter : Limiter) (metrics : Metrics)
    (opts : List ClientOption) : Proc Client :=
  fun n => Result.returned
    { id := n, sdk := sdk, url := url, limiter := limiter, metrics := metrics, opts := opts }
    (n + 1)

/-- The call `ankr.NewAnkrSDK(url, limiter, metrics)`. -/
def NewAnkrSDK (url : String) (limiter : Limiter) (metrics : Metrics) : Proc Client :=
  newSDK SDK.Ankr url limiter metrics []

/-- The call `solana.NewSolanaSDK(url, limiter, metrics, opts...)`. -/
def NewSolanaSDK (url : String) (limiter : Limiter) (metrics : Metrics)
    (opts : List ClientOption) : Proc Client :=
  newSDK SDK.Solana url limiter metrics opts

/-- The call `terra.NewTerraSDK(url, limiter, metrics)`. -/
def NewTerraSDK (url : String) (limiter : Limiter) (metrics : Metrics) : Proc Client :=
  newSDK SDK.Terra url limiter metrics []

/-- The call `aptos.NewAptosSDK(url, limiter, metrics)`. -/
def NewAptosSDK (url : String) (limiter : Limiter) (metrics : Metrics) : Proc Client :=
  newSDK SDK.Aptos url limiter metrics []

/-- The call `evm.NewEvmSDK(url, limiter, metrics)`. -/
def NewEvmSDK (url : String) (limiter : Limiter) (metrics : Metrics) : Proc Client :=
  newSDK SDK.Evm url limiter metrics []

end Watcher

/-! ## contract-watcher/builder/watcher.go -/

namespace Builder

open Watcher

/-- CreateEVMWatcher (watcher.go, lines 20-27). -/
def CreateEVMWatcher (rateLimit : Int) (chainURL : String) (wb : WatcherBlockchainAddresses)
    (repo : Repository) (metrics : Metrics) (logger : Logger) : Proc ContractWatcher := do
  let evmLimiter ← ratelimitNew rateLimit Second
  let ankrClient ← NewAnkrSDK chainURL evmLimiter metrics
  let params : EVMParams :=
    { ChainID := wb.ChainID, Blockchain := wb.Name, SizeBlocks := wb.SizeBlocks,
      WaitSeconds := wb.WaitSeconds, InitialBlock := wb.InitialBlock,
      MethodsByAddress := wb.MethodsByAddress }
  pure (ContractWatcher.NewEVMWatcher ankrClient repo params metrics logger)

/-- CreateSolanaWatcher (watcher.go, lines 29-39).  `PublicKeyFromBase58` is
`solana_go.PublicKeyFromBase58`, a function of the solana-go library. -/
def CreateSolanaWatcher (PublicKeyFromBase58 : String → Except String PublicKey)
    (rateLimit : Int) (chainURL : String) (wb : WatcherBlockchain)
    (logger : Logger) (repo : Repository) (metrics : Metrics) : Proc ContractWatcher := do
  let contractAddress ← match PublicKeyFromBase58 wb.Address with
    | Except.ok pk => pure pk
    | Except.error _ => logger.Fatal "failed to parse solana contract address"
  let solanaLimiter ← ratelimitNew rateLimit Second
  let solanaClient ← NewSolanaSDK chainURL solanaLimiter metrics
    [ClientOption.WithRetries 3 (10 * Second)]
  let params : SolanaParams :=
    { Blockchain := wb.Name, ContractAddress := contractAddress,
      SizeBlocks := wb.SizeBlocks, WaitSeconds := wb.WaitSeconds,
      InitialBlock := wb.InitialBlock }
  pure (ContractWatcher.NewSolanaWatcher solanaClient repo params metrics logger)

/-- CreateTerraWatcher (watcher.go, lines 41-47). -/
def CreateTerraWatcher (rateLimit : Int) (chainURL : String) (wb : WatcherBlockchain)
    (logger : Logger) (repo : Repository) (metrics : Metrics) : Proc ContractWatcher := do
  let terraLimiter ← ratelimitNew rateLimit Second
  let terraClient ← NewTerraSDK chainURL terraLimiter metrics
  let params : TerraParams :=
    { ChainID := wb.ChainID, Blockchain := wb.Name,
      ContractAddress := wb.Address, WaitSeconds := wb.WaitSeconds,
      InitialBlock := wb.InitialBlock }
  pure (ContractWatcher.NewTerraWatcher terraClient params repo metrics logger)

/-- CreateAptosWatcher (watcher.go, lines 49-59). -/
def CreateAptosWatcher (rateLimit : Int) (chainURL : String) (wb : WatcherBlockchain)
    (logger : Logger) (repo : Repository) (metrics : Metrics) : Proc ContractWatcher := do
  let aptosLimiter ← ratelimitNew rateLimit Second
  let aptosClient ← NewAptosSDK chainURL aptosLimiter metrics
  let params : AptosParams :=
    { Blockchain := wb.Name,
      ContractAddress := wb.Address,
      SizeBlocks := wb.SizeBlocks,
      WaitSeconds := wb.WaitSeconds,
      InitialBlock := wb.InitialBlock }
  pure (ContractWatcher.NewAptosWatcher aptosClient params repo metrics logger)

/-- CreateOasisWatcher (watcher.go, lines 61-72). -/
def CreateOasisWatcher (rateLimit : Int) (chainURL : String) (wb : WatcherBlockchainAddresses)
    (logger : Logger) (repo : Repository) (metrics : Metrics) : Proc ContractWatcher := do
  let oasisLimiter ← ratelimitNew rateLimit Second
  let oasisClient ← NewEvmSDK chainURL oasisLimiter metrics
  let params : EVMParams :=
    { ChainID := wb.ChainID,
      Blockchain := wb.Name,
      SizeBlocks := wb.SizeBlocks,
      WaitSeconds := wb.WaitSeconds,
      InitialBlock := wb.InitialBlock,
      MethodsByAddress := wb.MethodsByAddress }
  pure (ContractWatcher.NewEvmStandarWatcher oasisClient params repo metrics logger)

/-- CreateMoonbeamWatcher (watcher.go, lines 74-85). -/
def CreateMoonbeamWatcher (rateLimit : Int) (chainURL : String)
    (wb : WatcherBlockchainAddresses)
    (logger : Logger) (repo : Repository) (metrics : Metrics) : Proc ContractWatcher := do
  let moonbeamLimiter ← ratelimitNew rateLimit Second
  let moonbeamClient ← NewEvmSDK chainURL moonbeamLimiter metrics
  let params : EVMParams :=
    { ChainID := wb.ChainID,
      Blockchain := wb.Name,
      SizeBlocks := wb.SizeBlocks,
      WaitSeconds := wb.WaitSeconds,
      InitialBlock := wb.InitialBlock,
      MethodsByAddress := wb.MethodsByAddress }
  pure (ContractWatcher.NewEvmStandarWatcher moonbeamClient params repo metrics logger)

/-- CreateCeloWatcher (watcher.go, lines 87-98). -/
def CreateCeloWatcher (rateLimit : Int) (chainURL : String) (wb : WatcherBlockchainAddresses)
    (logger : Logger) (repo : Repository) (metrics : Metrics) : Proc ContractWatcher := do
  let celoLimiter ← ratelimitNew rateLimit Second
  let celoClient ← NewEvmSDK chainURL celoLimiter metrics
  let params : EVMParams :=
    { ChainID := wb.ChainID,
      Blockchain := wb.Name,
      SizeBlocks := wb.SizeBlocks,
      WaitSeconds := wb.WaitSeconds,
      InitialBlock := wb.InitialBlock,
      MethodsByAddress := wb.MethodsByAddress }
  pure (ContractWatcher.NewEvmStandarWatcher celoClient params repo metrics logger)

/-- CreateOptimismWatcher (watcher.go, lines 100-111). -/
def CreateOptimismWatcher (rateLimit : Int) (chainURL : String)
    (wb : WatcherBlockchainAddresses)
    (logger : Logger) (repo : Repository) (metrics : Metrics) : Proc ContractWatcher := do
  let optimismLimiter ← ratelimitNew rateLimit Second
  let optimismClient ← NewEvmSDK chainURL optimismLimiter metrics
  let params : EVMParams :=
    { ChainID := wb.ChainID,
      Blockchain := wb.Name,
      SizeBlocks := wb.SizeBlocks,
      WaitSeconds := wb.WaitSeconds,
      InitialBlock := wb.InitialBlock,
      MethodsByAddress := wb.MethodsByAddress }
  pure (ContractWatcher.NewEvmStandarWatcher optimismClient params repo metrics logger)

/-- CreateArbitrumWatcher (watcher.go, lines 113-124). -/
def CreateArbitrumWatcher (rateLimit : Int) (chainURL : String)
    (wb : WatcherBlockchainAddresses)
    (logger : Logger) (repo : Repository) (metrics : Metrics) : Proc ContractWatcher := do
  let arbitrumLimiter ← ratelimitNew rateLimit Second
  let arbitrumClient ← NewEvmSDK chainURL arbitrumLimiter metrics
  let params : EVMParams :=
    { ChainID := wb.ChainID,
      Blockchain := wb.Name,
      SizeBlocks := wb.SizeBlocks,
      WaitSeconds := wb.WaitSeconds,
      InitialBlock := wb.InitialBlock,
      MethodsByAddress := wb.MethodsByAddress }
  pure (ContractWatcher.NewEvmStandarWatcher arbitrumClient params repo metrics logger)

end Builder

/-! ## contract-watcher/cmd/service/run.go -/

namespace Service

open Watcher

/-- The type `config.ServiceConfiguration`, with the fields `newWatchers` and
the two `newWatchersFor...` functions read. -/
structure ServiceConfiguration where
  P2pNetwork : String
  AnkrUrl : String
  AnkrRequestsPerSecond : Int
  SolanaUrl : String
  SolanaRequestsPerSecond : Int
  TerraUrl : String
  TerraRequestsPerSecond : Int
  AptosUrl : String
  AptosRequestsPerSecond : Int
  OasisUrl : String
  OasisRequestsPerSecond : Int
  MoonbeamUrl : String
  MoonbeamRequestsPerSecond : Int
  CeloUrl : String
  CeloRequestsPerSecond : Int
  OptimismUrl : String
  OptimismRequestsPerSecond : Int
  ArbitrumUrl : String
  ArbitrumRequestsPerSecond : Int
  deriving DecidableEq, Repr

/-- The package-level values of `domain` and `config` that run.go names and
that are declared outside the embedded files, and the library function
`solana_go.PublicKeyFromBase58`. -/
structure Consts where
  P2pMainNet : String
  P2pTestNet : String
  ETHEREUM_MAINNET : WatcherBlockchainAddresses
  POLYGON_MAINNET : WatcherBlockchainAddresses
  BSC_MAINNET : WatcherBlockchainAddresses
  FANTOM_MAINNET : WatcherBlockchainAddresses
  AVALANCHE_MAINNET : WatcherBlockchainAddresses
  SOLANA_MAINNET : WatcherBlockchain
  TERRA_MAINNET : WatcherBlockchain
  APTOS_MAINNET : WatcherBlockchain
  OASIS_MAINNET : WatcherBlockchainAddresses
  MOONBEAM_MAINNET : WatcherBlockchainAddresses
  CELO_MAINNET : WatcherBlockchainAddresses
  ETHEREUM_TESTNET : WatcherBlockchainAddresses
  POLYGON_TESTNET : WatcherBlockchainAddresses
  BSC_TESTNET : WatcherBlockchainAddresses
  FANTOM_TESTNET : WatcherBlockchainAddresses
  AVALANCHE_TESTNET : WatcherBlockchainAddresses
  SOLANA_TESTNET : WatcherBlockchain
  APTOS_TESTNET : WatcherBlockchain
  OASIS_TESTNET : WatcherBlockchainAddresses
  MOONBEAM_TESTNET : WatcherBlockchainAddresses
  CELO_TESTNET : WatcherBlockchainAddresses
  PublicKeyFromBase58 : String → Except String PublicKey

/-- rateLimitConfig (run.go, lines 54-64). -/
structure rateLimitConfig where
  ankr : Int
  solana : Int
  terra : Int
  aptos : Int
  oasis : Int
  moonbeam : Int
  celo : Int
  optimism : Int
  arbitrum : Int
  deriving DecidableEq, Repr

/-- watchersConfig (run.go, lines 41-52); a nil pointer is `none`. -/
structure watchersConfig where
  evms : List WatcherBlockchainAddresses
  solana : Option WatcherBlockchain
  terra : Option WatcherBlockchain
  aptos : Option WatcherBlockchain
  oasis : Option WatcherBlockchainAddresses
  moonbeam : Option WatcherBlockchainAddresses
  celo : Option WatcherBlockchainAddresses
  arbitrum : Option WatcherBlockchainAddresses
  optimism : Option WatcherBlockchainAddresses
  rateLimit : rateLimitConfig
  deriving DecidableEq, Repr

/-- The Go zero value `&watchersConfig{}` (run.go, line 148). -/
def watchersConfig.zero : watchersConfig :=
  { evms := [], solana := none, terra := none, aptos := none, oasis := none,
    moonbeam := none, celo := none, arbitrum := none, optimism := none,
    rateLimit :=
      { ankr := 0, solana := 0, terra := 0, aptos := 0, oasis := 0, moonbeam := 0,
        celo := 0, optimism := 0, arbitrum := 0 } }

/-- newWatchersForMainnet (run.go, lines 213-240). -/
def newWatchersForMainnet (k : Consts) (cfg : ServiceConfiguration) : watchersConfig :=
  { evms :=
      [ k.ETHEREUM_MAINNET,
        k.POLYGON_MAINNET,
        k.BSC_MAINNET,
        k.FANTOM_MAINNET,
        k.AVALANCHE_MAINNET ],
    solana := some k.SOLANA_MAINNET,
    terra := some k.TERRA_MAINNET,
    aptos := some k.APTOS_MAINNET,
    oasis := some k.OASIS_MAINNET,
    moonbeam := some k.MOONBEAM_MAINNET,
    celo := some k.CELO_MAINNET,
    arbitrum := none,
    optimism := none,
    rateLimit :=
      { ankr := cfg.AnkrRequestsPerSecond,
        solana := cfg.SolanaRequestsPerSecond,
        terra := cfg.TerraRequestsPerSecond,
        aptos := cfg.AptosRequestsPerSecond,
        oasis := cfg.OasisRequestsPerSecond,
        moonbeam := cfg.MoonbeamRequestsPerSecond,
        celo := cfg.CeloRequestsPerSecond,
        arbitrum := cfg.ArbitrumRequestsPerSecond,
        optimism := cfg.OptimismRequestsPerSecond } }

/-- newWatchersForTestnet (run.go, lines 242-268). -/
def newWatchersForTestnet (k : Consts) (cfg : ServiceConfiguration) : watchersConfig :=
  { evms :=
      [ k.ETHEREUM_TESTNET,
        k.POLYGON_TESTNET,
        k.BSC_TESTNET,
        k.FANTOM_TESTNET,
        k.AVALANCHE_TESTNET ],
    solana := some k.SOLANA_TESTNET,
    terra := none,
    aptos := some k.APTOS_TESTNET,
    oasis := some k.OASIS_TESTNET,
    moonbeam := some k.MOONBEAM_TESTNET,
    celo := some k.CELO_TESTNET,
    arbitrum := none,
    optimism := none,
    rateLimit :=
      { ankr := cfg.AnkrRequestsPerSecond,
        solana := cfg.SolanaRequestsPerSecond,
        terra := cfg.TerraRequestsPerSecond,
        aptos := cfg.AptosRequestsPerSecond,
        oasis := cfg.OasisRequestsPerSecond,
        moonbeam := cfg.MoonbeamRequestsPerSecond,
        celo := cfg.CeloRequestsPerSecond,
        optimism := cfg.OptimismRequestsPerSecond,
        arbitrum := cfg.ArbitrumRequestsPerSecond } }

/-- The switch on `config.P2pNetwork` of newWatchers (run.go, lines 141-149). -/
def selectWatchers (k : Consts) (config : ServiceConfiguration) : watchersConfig :=
  if config.P2pNetwork = k.P2pMainNet then newWatchersForMainnet k config
  else if config.P2pNetwork = k.P2pTestNet then newWatchersForTestnet k config
  else watchersConfig.zero

/-- The loop body over `watchers.evms` of newWatchers (run.go, lines 156-160):
the watcher appended for the entry `w`. -/
def evmLoopWatcher (ankrClient : Client) (repo : Repository) (metrics : Metrics)
    (logger : Logger) (w : WatcherBlockchainAddresses) : ContractWatcher :=
  let params : EVMParams :=
    { ChainID := w.ChainID, Blockchain := w.Name, SizeBlocks := w.SizeBlocks,
      WaitSeconds := w.WaitSeconds, InitialBlock := w.InitialBlock,
      MethodsByAddress := w.MethodsByAddress }
  ContractWatcher.NewEVMWatcher ankrClient repo params metrics logger

/-- An `if p != nil { w := create(*p); result = append(result, w) }` block of
newWatchers. -/
def appendIfSet {β : Type} (result : List ContractWatcher) (p : Option β)
    (create : β → Proc ContractWatcher) : Proc (List ContractWatcher) :=
  match p with
  | none => pure result
  | some v => do
    let w ← create v
    pure (result ++ [w])

/-- The body of newWatchers after the switch (run.go, lines 151-210), for the
`watchers` the switch selected. -/
def buildWatchers (k : Consts) (config : ServiceConfiguration) (watchers : watchersConfig)
    (repo : Repository) (metrics : Metrics) (logger : Logger) :
    Proc (List ContractWatcher) := do
  let result : List ContractWatcher := []
  -- add evm watchers
  let evmLimiter ← ratelimitNew watchers.rateLimit.ankr Second
  let ankrClient ← NewAnkrSDK config.AnkrUrl evmLimiter metrics
  let result := watchers.evms.foldl
    (fun acc w => acc ++ [evmLoopWatcher ankrClient repo metrics logger w]) result
  -- add solana watcher
  let result ← appendIfSet result watchers.solana (fun wb =>
    Builder.CreateSolanaWatcher k.PublicKeyFromBase58 watchers.rateLimit.solana
      config.SolanaUrl wb logger repo metrics)
  -- add terra watcher
  let result ← appendIfSet result watchers.terra (fun wb =>
    Builder.CreateTerraWatcher watchers.rateLimit.terra config.TerraUrl wb logger repo metrics)
  -- add aptos watcher
  let result ← appendIfSet result watchers.aptos (fun wb =>
    Builder.CreateAptosWatcher watchers.rateLimit.aptos config.AptosUrl wb logger repo metrics)
  -- add oasis watcher
  let result ← appendIfSet result watchers.oasis (fun wb =>
    Builder.CreateOasisWatcher watchers.rateLimit.oasis config.OasisUrl wb logger repo metrics)
  -- add moonbeam watcher
  let result ← appendIfSet result watchers.moonbeam (fun wb =>
    Builder.CreateMoonbeamWatcher watchers.rateLimit.moonbeam config.MoonbeamUrl wb
      logger repo metrics)
  -- add celo watcher
  let result ← appendIfSet result watchers.celo (fun wb =>
    Builder.CreateCeloWatcher watchers.rateLimit.celo config.CeloUrl wb logger repo metrics)
  -- add optimism watcher
  let result ← appendIfSet result watchers.optimism (fun wb =>
    Builder.CreateOptimismWatcher watchers.rateLimit.optimism config.OptimismUrl wb
      logger repo metrics)
  -- add arbitrum watcher
  let result ← appendIfSet result watchers.arbitrum (fun wb =>
    Builder.CreateOptimismWatcher watchers.rateLimit.arbitrum config.ArbitrumUrl wb
      logger repo metrics)
  pure result

/-- newWatchers (run.go, lines 140-211). -/
def newWatchers (k : Consts) (config : ServiceConfiguration) (repo : Repository)
    (metrics : Metrics) (logger : Logger) : Proc (List ContractWatcher) :=
  buildWatchers k config (selectWatchers k config) repo metrics logger

end Service

/-! ## Concrete inputs

The values below are inputs at which the definitions above are evaluated. -/

namespace Sample

open Watcher Service

/-- The base58 alphabet (Bitcoin flavour, as used by Solana addresses). -/
def base58Alphabet : List Char :=
  "123456789ABCDEFGHJKLMNPQRSTUVWXYZabcdefghijkmnopqrstuvwxyz".toList

/-- The value of a base58 digit, `none` for a character outside the alphabet. -/
def base58Digit (c : Char) : Option Nat :=
  let i := base58Alphabet.indexOf c
  if i < 58 then some i else none

/-- The number a base58 string denotes, `none` if a character is invalid. -/
def base58Value : List Char → Nat → Option Nat
  | [], acc => some acc
  | c :: cs, acc =>
    match base58Digit c with
    | none => none
    | some d => base58Value cs (acc * 58 + d)

/-- Big-endian bytes of a number, at most `fuel` of them. -/
def bytesBE : Nat → Nat → List Nat
  | 0, _ => []
  | fuel + 1, n => if n = 0 then [] else bytesBE fuel (n / 256) ++ [n % 256]

/-- Base58 decoding to bytes: every leading `1` is a zero byte. -/
def base58Decode (s : String) : Option (List Nat) :=
  let cs := s.toList
  match base58Value cs 0 with
  | none => none
  | some v =>
    let zeros := (cs.takeWhile (fun c => c == '1')).length
    some (List.replicate zeros 0 ++ bytesBE cs.length v)

/-- A public key parser with the behaviour of `solana_go.PublicKeyFromBase58`:
the input must be base58 and decode to exactly 32 bytes. -/
def PublicKeyFromBase58 (s : String) : Except String PublicKey :=
  match base58Decode s with
  | none => Except.error "decode: invalid base58 digit"
  | some bs =>
    if bs.length = 32 then Except.ok { bytes := bs }
    else Except.error "invalid length, expected 32"

/-- An address-set configuration with one monitored address. -/
def evmChain (id : Nat) (name : String) (addr : String) (size : Nat) :
    WatcherBlockchainAddresses :=
  { ChainID := id, Name := name, SizeBlocks := size, WaitSeconds := 10,
    InitialBlock := 100,
    MethodsByAddress := [(addr, [{ ID := "0xc6878519", Name := "completeTransfer" }])] }

/-- A single-address configuration. -/
def oneChain (id : Nat) (name : String) (addr : String) : WatcherBlockchain :=
  { ChainID := id, Name := name, Address := addr, SizeBlocks := 50, WaitSeconds := 10,
    InitialBlock := 1000 }

/-- A table of chain constants whose Solana mainnet address `solanaAddr` is
left open. -/
def consts (solanaAddr : String) : Consts :=
  { P2pMainNet := "mainnet",
    P2pTestNet := "testnet",
    ETHEREUM_MAINNET := evmChain 2 "ethereum" "0x3ee18b2214aff97000d974cf647e7c347e8fa585" 100,
    POLYGON_MAINNET := evmChain 5 "polygon" "0x5a58505a96d1dbf8df91cb21b54419fc36e93fde" 100,
    BSC_MAINNET := evmChain 4 "bsc" "0xb6f6d86a8f9879a9c87f643768d9efc38c1da6e7" 100,
    FANTOM_MAINNET := evmChain 10 "fantom" "0x7c9fc5741288cdfdd83ceb07f3ea7e22618d79d2" 100,
    AVALANCHE_MAINNET := evmChain 6 "avalanche" "0x0e082f06ff657d94310cb8ce8b0d9a04541d8052" 100,
    SOLANA_MAINNET := oneChain 1 "solana" solanaAddr,
    TERRA_MAINNET := oneChain 3 "terra" "terra10nmmwe8r3g99a9newtqa7a75xfgs2e8z87r2sf",
    APTOS_MAINNET := oneChain 22 "aptos" "0x576410486a2da45eee6c949c995670112ddf2fbeedab20350d506328eefc9d4f",
    OASIS_MAINNET := evmChain 7 "oasis" "0x5848c791e09901b40a9ef749f2a6735b418d7564" 100,
    MOONBEAM_MAINNET := evmChain 16 "moonbeam" "0xb1731c586ca89a23809861c6103f0b96b3f57d92" 100,
    CELO_MAINNET := evmChain 14 "celo" "0x796dff6d74f3e27060b71255fe517bfb23c93eed" 100,
    ETHEREUM_TESTNET := evmChain 2 "ethereum" "0xf890982f9310df57d00f659cf4fd87e65aded8d7" 10,
    POLYGON_TESTNET := evmChain 5 "polygon" "0x377d55a7928c046e18eebb61977e714d2a76472a" 10,
    BSC_TESTNET := evmChain 4 "bsc" "0x9dcf9d205c9de35334d646bee44b2d2859712a09" 10,
    FANTOM_TESTNET := evmChain 10 "fantom" "0x599cea2204b4faecd584ab1f2b6aca137a0afbe8" 10,
    AVALANCHE_TESTNET := evmChain 6 "avalanche" "0x61e44e506ca5659e6c0bba9b678586fa2d729756" 10,
    SOLANA_TESTNET := oneChain 1 "solana" "11111111111111111111111111111111",
    APTOS_TESTNET := oneChain 22 "aptos" "0x576410486a2da45eee6c949c995670112ddf2fbeedab20350d506328eefc9d4f",
    OASIS_TESTNET := evmChain 7 "oasis" "0x88d8004a9bdbfd9d28090a02010c19897a29605c" 10,
    MOONBEAM_TESTNET := evmChain 16 "moonbeam" "0xbc976d4b9d57e57c3ca52e1fd136c45ff7955a96" 10,
    CELO_TESTNET := evmChain 14 "celo" "0x05ca6037ec51f8b712ed2e6fa72219feae74e153" 10,
    PublicKeyFromBase58 := PublicKeyFromBase58 }

/-- A service configuration for the given network. -/
def config (network : String) : ServiceConfiguration :=
  { P2pNetwork := network,
    AnkrUrl := "https://rpc.ankr.example/multichain", AnkrRequestsPerSecond := 20,
    SolanaUrl := "https://solana.example", SolanaRequestsPerSecond := 5,
    TerraUrl := "https://terra.example", TerraRequestsPerSecond := 6,
    AptosUrl := "https://aptos.example", AptosRequestsPerSecond := 7,
    OasisUrl := "https://oasis.example", OasisRequestsPerSecond := 8,
    MoonbeamUrl := "https://moonbeam.example", MoonbeamRequestsPerSecond := 9,
    CeloUrl := "https://celo.example", CeloRequestsPerSecond := 10,
    OptimismUrl := "https://optimism.example", OptimismRequestsPerSecond := 11,
    ArbitrumUrl := "https://arbitrum.example", ArbitrumRequestsPerSecond := 12 }

/-- Handles of the shared infrastructure. -/
def repo : Repository := { id := 1 }

/-- A metrics handle. -/
def metrics : Metrics := { id := 2 }

/-- A logger handle. -/
def logger : Logger := { id := 3 }

end Sample

/-! ## Properties stated by the specification -/

namespace Governor

/-- The invariant of the loop of GetEnqueuedVaas, for the loop state
`(result, existingEnqueuedVaa)` after the entries `seen` were visited: the map
holds exactly the keys of the result, the result has no two entries with one
key, every visited entry has its key in the result, and every result entry is
a visited entry. -/
def DedupInv (chainString : ChainID → String) (seen : List EnqueuedVaaItem)
    (st : List EnqueuedVaaItem × List String) : Prop :=
  (∀ k, k ∈ st.2 ↔ k ∈ st.1.map (enqueuedKey chainString)) ∧
  (st.1.map (enqueuedKey chainString)).Nodup ∧
  (∀ e ∈ seen, enqueuedKey chainString e ∈ st.1.map (enqueuedKey chainString)) ∧
  (∀ r ∈ st.1, r ∈ seen)

end Governor

namespace Watcher

/-- A monitored contract address as a watcher holds it: the configured text,
or the public key parsed from it. -/
inductive Address where
  | text (s : String)
  | key (pk : PublicKey)
  deriving DecidableEq, Repr

/-- The `ContractAddress` field of a watcher parameters; the EVM parameters
have `MethodsByAddress` instead. -/
def ContractWatcher.contractAddress : ContractWatcher → Option Address
  | .NewEVMWatcher _ _ _ _ _ => none
  | .NewSolanaWatcher _ _ p _ _ => some (Address.key p.ContractAddress)
  | .NewTerraWatcher _ p _ _ _ => some (Address.text p.ContractAddress)
  | .NewAptosWatcher _ p _ _ _ => some (Address.text p.ContractAddress)
  | .NewEvmStandarWatcher _ _ _ _ _ => none

/-- The `EVMParams` of an EVM-family watcher. -/
def ContractWatcher.evmParams : ContractWatcher → Option EVMParams
  | .NewEVMWatcher _ _ p _ _ => some p
  | .NewEvmStandarWatcher _ p _ _ _ => some p
  | _ => none

/-- The watcher parameters `p` carry the six configured values of `wb`. -/
def ParamsMatch (p : EVMParams) (wb : WatcherBlockchainAddresses) : Prop :=
  p.ChainID = wb.ChainID ∧ p.Blockchain = wb.Name ∧ p.SizeBlocks = wb.SizeBlocks ∧
  p.WaitSeconds = wb.WaitSeconds ∧ p.InitialBlock = wb.InitialBlock ∧
  p.MethodsByAddress = wb.MethodsByAddress

/-- A construction returned an EVM-family watcher whose parameters carry the
configured values of `wb`. -/
def BuildsParams (r : Result ContractWatcher) (wb : WatcherBlockchainAddresses) : Prop :=
  ∃ w n, r = Result.returned w n ∧ ∃ p, w.evmParams = some p ∧ ParamsMatch p wb

/-- A construction started at allocation counter `n` returned a watcher whose
client calls through a limiter that did not exist before (its identity is the
first unused one, `n`) and that admits `rate` calls per one-second window. -/
def FreshLimiter (r : Result ContractWatcher) (n : Nat) (rate : Int) : Prop :=
  ∃ w n1, r = Result.returned w n1 ∧ n < n1 ∧
    w.limiter = { id := n, rate := rate, per := Second }

/-- A client was constructed with an explicit retry policy. -/
def Client.hasRetryPolicy (c : Client) : Prop :=
  ∃ attempts delay, ClientOption.WithRetries attempts delay ∈ c.opts

/-- A construction returned a watcher whose client was constructed with
exactly the options `opts`. -/
def BuildsClientWith (r : Result ContractWatcher) (opts : List ClientOption) : Prop :=
  ∃ w n, r = Result.returned w n ∧ w.client.opts = opts

/-- A construction returned a watcher that carries the name, the poll interval
and the initial block of `wb`, the contract address `addr`, and the polling
window `size` (`none`: its parameters have no window). -/
def Carries (r : Result ContractWatcher) (wb : WatcherBlockchain) (addr : Address)
    (size : Option Nat) : Prop :=
  ∃ w n, r = Result.returned w n ∧ w.blockchain = wb.Name ∧
    w.contractAddress = some addr ∧ w.sizeBlocks = size ∧
    w.waitSeconds = wb.WaitSeconds ∧ w.initialBlock = wb.InitialBlock

/-- Every watcher the construction returns satisfies `P`.  A construction that
ends in a fatal log or in a panic returns no watcher. -/
def Always (r : Result ContractWatcher) (P : ContractWatcher → Prop) : Prop :=
  ∀ w n, r = Result.returned w n → P w

/-- The watcher carries the name, the poll interval and the initial block of
`wb`, the contract address `addr`, and the polling window `size` (`none`: its
parameters have no window). -/
def CarriesConfig (wb : WatcherBlockchain) (addr : Address) (size : Option Nat)
    (w : ContractWatcher) : Prop :=
  w.blockchain = wb.Name ∧ w.contractAddress = some addr ∧ w.sizeBlocks = size ∧
  w.waitSeconds = wb.WaitSeconds ∧ w.initialBlock = wb.InitialBlock

/-- The watcher calls through the limiter with identity `n`, configured for
`rate` permits per one-second window. -/
def LimiterIs (n : Nat) (rate : Int) (w : ContractWatcher) : Prop :=
  w.limiter = { id := n, rate := rate, per := Second }

/-- The client of the watcher was constructed with exactly the options `opts`. -/
def ClientOptsAre (opts : List ClientOption) (w : ContractWatcher) : Prop :=
  w.client.opts = opts

/-- The outcome `r` of a construction together with the configuration `wb`,
as the value the parameter of the construction holds when it returns. -/
def withParam (r : Result ContractWatcher) (wb : WatcherBlockchainAddresses) :
    Result (ContractWatcher × WatcherBlockchainAddresses) :=
  match r with
  | Result.returned w n => Result.returned (w, wb) n
  | Result.fatal msg => Result.fatal msg
  | Result.panic msg => Result.panic msg

/-- The watcher is of the EVM family and its parameters carry the six
configured values of `wb`. -/
def HasParamsOf (wb : WatcherBlockchainAddresses) (w : ContractWatcher) : Prop :=
  ∃ p, w.evmParams = some p ∧ ParamsMatch p wb

/-- Two watchers are wired to different limiter instances and to different
client instances. -/
def Unshared (a b : ContractWatcher) : Prop :=
  a.limiter.id ≠ b.limiter.id ∧ a.client.id ≠ b.client.id

/-- The rate budget is never shared across chains: watchers of different
chains are wired to different limiters and clients. -/
def NeverSharedAcrossChains (ws : List ContractWatcher) : Prop :=
  ws.Pairwise (fun a b => a.blockchain ≠ b.blockchain → Unshared a b)

/-- The sharing the wiring code has: only two Ankr-backed EVM watchers may be
wired to the same limiter and client. -/
def SharedOnlyByAnkr (ws : List ContractWatcher) : Prop :=
  ws.Pairwise (fun a b => ¬ (a.isAnkr = true ∧ b.isAnkr = true) → Unshared a b)

/-- All Ankr-backed EVM watchers are wired to one limiter and one client. -/
def AnkrShared (ws : List ContractWatcher) : Prop :=
  ∀ a ∈ ws, ∀ b ∈ ws, a.isAnkr = true → b.isAnkr = true →
    a.limiter = b.limiter ∧ a.client = b.client

end Watcher

namespace Builder

open Watcher

/-- The single factory the specification describes for the EVM-standard chain
family (Oasis, Moonbeam, Celo, Optimism, Arbitrum): one limiter of `rateLimit`
calls per second (whose construction panics for the budget 0), one
`evm.NewEvmSDK` client on it, the `EVMParams` of `wb`, and
`NewEvmStandarWatcher`. -/
def CreateEvmStandardWatcher (rateLimit : Int) (chainURL : String)
    (wb : WatcherBlockchainAddresses) (logger : Logger) (repo : Repository)
    (metrics : Metrics) : Proc ContractWatcher := fun n =>
  if rateLimit = 0 then Result.panic divideByZero
  else
    Result.returned (ContractWatcher.NewEvmStandarWatcher
      { id := n + 1, sdk := SDK.Evm, url := chainURL,
        limiter := { id := n, rate := rateLimit, per := Second },
        metrics := metrics, opts := [] }
      { ChainID := wb.ChainID, Blockchain := wb.Name, SizeBlocks := wb.SizeBlocks,
        WaitSeconds := wb.WaitSeconds, InitialBlock := wb.InitialBlock,
        MethodsByAddress := wb.MethodsByAddress } repo metrics logger) (n + 2)

end Builder

namespace Builder

open Watcher

/-- CreateEVMWatcher (watcher.go, lines 20-27) together with the value its
parameter `wb` holds when it returns.  Go passes the struct `wb` by value, so
`wb` is a variable of the function; its statements read the fields of `wb` and
none assigns to `wb`, to a field of it, or into its map. -/
def CreateEVMWatcherWb (rateLimit : Int) (chainURL : String)
    (wb : WatcherBlockchainAddresses) (repo : Repository) (metrics : Metrics) (logger : Logger) :
    Proc (ContractWatcher × WatcherBlockchainAddresses) := do
  let evmLimiter ← ratelimitNew rateLimit Second
  let ankrClient ← NewAnkrSDK chainURL evmLimiter metrics
  let params : EVMParams :=
    { ChainID := wb.ChainID,
      Blockchain := wb.Name,
      SizeBlocks := wb.SizeBlocks,
      WaitSeconds := wb.WaitSeconds,
      InitialBlock := wb.InitialBlock,
      MethodsByAddress := wb.MethodsByAddress }
  pure (ContractWatcher.NewEVMWatcher ankrClient repo params metrics logger, wb)

/-- CreateOasisWatcher (watcher.go, lines 61-72) together with the value its
parameter `wb` holds when it returns.  Go passes the struct `wb` by value, so
`wb` is a variable of the function; its statements read the fields of `wb` and
none assigns to `wb`, to a field of it, or into its map. -/
def CreateOasisWatcherWb (rateLimit : Int) (chainURL : String)
    (wb : WatcherBlockchainAddresses) (logger : Logger) (repo : Repository) (metrics : Metrics) :
    Proc (ContractWatcher × WatcherBlockchainAddresses) := do
  let oasisLimiter ← ratelimitNew rateLimit Second
  let oasisClient ← NewEvmSDK chainURL oasisLimiter metrics
  let params : EVMParams :=
    { ChainID := wb.ChainID,
      Blockchain := wb.Name,
      SizeBlocks := wb.SizeBlocks,
      WaitSeconds := wb.WaitSeconds,
      InitialBlock := wb.InitialBlock,
      MethodsByAddress := wb.MethodsByAddress }
  pure (ContractWatcher.NewEvmStandarWatcher oasisClient params repo metrics logger, wb)

/-- CreateMoonbeamWatcher (watcher.go, lines 74-85) together with the value its
parameter `wb` holds when it returns.  Go passes the struct `wb` by value, so
`wb` is a variable of the function; its statements read the fields of `wb` and
none assigns to `wb`, to a field of it, or into its map. -/
def CreateMoonbeamWatcherWb (rateLimit : Int) (chainURL : String)
    (wb : WatcherBlockchainAddresses) (logger : Logger) (repo : Repository) (metrics : Metrics) :
    Proc (ContractWatcher × WatcherBlockchainAddresses) := do
  let moonbeamLimiter ← ratelimitNew rateLimit Second
  let moonbeamClient ← NewEvmSDK chainURL moonbeamLimiter metrics
  let params : EVMParams :=
    { ChainID := wb.ChainID,
      Blockchain := wb.Name,
      SizeBlocks := wb.SizeBlocks,
      WaitSeconds := wb.WaitSeconds,
      InitialBlock := wb.InitialBlock,
      MethodsByAddress := wb.MethodsByAddress }
  pure (ContractWatcher.NewEvmStandarWatcher moonbeamClient params repo metrics logger, wb)

/-- CreateCeloWatcher (watcher.go, lines 87-98) together with the value its
parameter `wb` holds when it returns.  Go passes the struct `wb` by value, so
`wb` is a variable of the function; its statements read the fields of `wb` and
none assigns to `wb`, to a field of it, or into its map. -/
def CreateCeloWatcherWb (rateLimit : Int) (chainURL : String)
    (wb : WatcherBlockchainAddresses) (logger : Logger) (repo : Repository) (metrics : Metrics) :
    Proc (ContractWatcher × WatcherBlockchainAddresses) := do
  let celoLimiter ← ratelimitNew rateLimit Second
  let celoClient ← NewEvmSDK chainURL celoLimiter metrics
  let params : EVMParams :=
    { ChainID := wb.ChainID,
      Blockchain := wb.Name,
      SizeBlocks := wb.SizeBlocks,
      WaitSeconds := wb.WaitSeconds,
      InitialBlock := wb.InitialBlock,
      MethodsByAddress := wb.MethodsByAddress }
  pure (ContractWatcher.NewEvmStandarWatcher celoClient params repo metrics logger, wb)

/-- CreateOptimismWatcher (watcher.go, lines 100-111) together with the value its
parameter `wb` holds when it returns.  Go passes the struct `wb` by value, so
`wb` is a variable of the function; its statements read the fields of `wb` and
none assigns to `wb`, to a field of it, or into its map. -/
def CreateOptimismWatcherWb (rateLimit : Int) (chainURL : String)
    (wb : WatcherBlockchainAddresses) (logger : Logger) (repo : Repository) (metrics : Metrics) :
    Proc (ContractWatcher × WatcherBlockchainAddresses) := do
  let optimismLimiter ← ratelimitNew rateLimit Second
  let optimismClient ← NewEvmSDK chainURL optimismLimiter metrics
  let params : EVMParams :=
    { ChainID := wb.ChainID,
      Blockchain := wb.Name,
      SizeBlocks := wb.SizeBlocks,
      WaitSeconds := wb.WaitSeconds,
      InitialBlock := wb.InitialBlock,
      MethodsByAddress := wb.MethodsByAddress }
  pure (ContractWatcher.NewEvmStandarWatcher optimismClient params repo metrics logger, wb)

/-- CreateArbitrumWatcher (watcher.go, lines 113-124) together with the value its
parameter `wb` holds when it returns.  Go passes the struct `wb` by value, so
`wb` is a variable of the function; its statements read the fields of `wb` and
none assigns to `wb`, to a field of it, or into its map. -/
def CreateArbitrumWatcherWb (rateLimit : Int) (chainURL : String)
    (wb : WatcherBlockchainAddresses) (logger : Logger) (repo : Repository) (metrics : Metrics) :
    Proc (ContractWatcher × WatcherBlockchainAddresses) := do
  let arbitrumLimiter ← ratelimitNew rateLimit Second
  let arbitrumClient ← NewEvmSDK chainURL arbitrumLimiter metrics
  let params : EVMParams :=
    { ChainID := wb.ChainID,
      Blockchain := wb.Name,
      SizeBlocks := wb.SizeBlocks,
      WaitSeconds := wb.WaitSeconds,
      InitialBlock := wb.InitialBlock,
      MethodsByAddress := wb.MethodsByAddress }
  pure (ContractWatcher.NewEvmStandarWatcher arbitrumClient params repo metrics logger, wb)

end Builder

namespace Service

open Watcher

/-- The loop body over `watchers.evms` of newWatchers (run.go, lines 156-160)
together with the value the loop variable `w` holds after it: `w` is a copy of
the entry, the body reads its fields and does not assign to it. -/
def evmLoopWatcherWb (ankrClient : Client) (repo : Repository) (metrics : Metrics)
    (logger : Logger) (w : WatcherBlockchainAddresses) :
    ContractWatcher × WatcherBlockchainAddresses :=
  let params : EVMParams :=
    { ChainID := w.ChainID, Blockchain := w.Name, SizeBlocks := w.SizeBlocks,
      WaitSeconds := w.WaitSeconds, InitialBlock := w.InitialBlock,
      MethodsByAddress := w.MethodsByAddress }
  (ContractWatcher.NewEVMWatcher ankrClient repo params metrics logger, w)

end Service

namespace Service

open Watcher

/-- The names of the chains a `watchersConfig` configures, in the order
newWatchers visits them: the EVM list, then every pointer that is set. -/
def watchersConfig.chains (w : watchersConfig) : List String :=
  w.evms.map (fun c => c.Name) ++
    List.reduceOption
      [ w.solana.map (fun c => c.Name), w.terra.map (fun c => c.Name),
        w.aptos.map (fun c => c.Name), w.oasis.map (fun c => c.Name),
        w.moonbeam.map (fun c => c.Name), w.celo.map (fun c => c.Name),
        w.optimism.map (fun c => c.Name), w.arbitrum.map (fun c => c.Name) ]

/-- The invariant of the wiring in newWatchers, for the watchers `ws` built so
far and the allocation counter `n`: every limiter and client wired so far was
allocated before `n`, only Ankr-backed watchers share, and every Ankr-backed
watcher is wired to the client `c`. -/
def WiringInv (c : Client) (ws : List ContractWatcher) (n : Nat) : Prop :=
  (∀ w ∈ ws, w.limiter.id < n ∧ w.client.id < n) ∧
  SharedOnlyByAnkr ws ∧
  (∀ w ∈ ws, w.isAnkr = true → w.client = c)

end Service

namespace Sample

open Watcher Service

/-- The Solana address of the wormhole token bridge, a valid public key. -/
def solanaAddress : String := "wormDTUJ6AWPNvk59vGQbDvGJmqbDTdgWgAqcLBCgUb"

/-- An EVM address put where a Solana address belongs: `0` is no base58 digit. -/
def malformedAddress : String := "0x3ee18b2214aff97000d974cf647e7c347e8fa585"

/-- The watchers newWatchers returns for mainnet with the valid address. -/
def mainnetWatchers : List ContractWatcher :=
  match newWatchers (consts solanaAddress) (config "mainnet") repo metrics logger 0 with
  | Result.returned ws _ => ws
  | Result.fatal _ => []
  | Result.panic _ => []

/-- A repository whose enqueued VAAs hold the same VAA twice. -/
def govRepo : Governor.Repository String String :=
  { GetAvailableNotionalByChainID := fun _ => (["available"], none),
    GetMaxNotionalAvailableByChainID := fun _ => ("max", some (Governor.Error.repo "timeout")),
    GetEnqueuedVaas :=
      ([ { EmitterChain := 2, EmitterAddress := "0xabc", Sequence := "7",
           ReleaseTime := 10, NotionalValue := 5, TxHash := "0x01" },
         { EmitterChain := 1, EmitterAddress := "0xdef", Sequence := "7",
           ReleaseTime := 11, NotionalValue := 6, TxHash := "0x02" },
         { EmitterChain := 2, EmitterAddress := "0xabc", Sequence := "7",
           ReleaseTime := 12, NotionalValue := 5, TxHash := "0x01" } ], none) }

/-- A governor service supporting Solana (1) and Ethereum (2). -/
def govService : Governor.Service String String :=
  Governor.NewService [(1, "solana"), (2, "ethereum")] govRepo

/-- A chain printer for the `%s` verb. -/
def chainString (c : Governor.ChainID) : String :=
  if c = 1 then "solana" else if c = 2 then "ethereum" else "unknown chain ID: " ++ toString c

end Sample

/-! ## Properties of the de-duplication of GetEnqueuedVaas -/

namespace Governor

/-- The entries the loop of GetEnqueuedVaas appends when it visits `entries`
with the keys `seen` already in its map: an entry is kept when its key was not
seen, and its key is seen from then on. -/
def keepFirst (chainString : ChainID → String) :
    List String → List EnqueuedVaaItem → List EnqueuedVaaItem
  | _, [] => []
  | seen, e :: es =>
    if enqueuedKey chainString e ∈ seen then keepFirst chainString seen es
    else e :: keepFirst chainString (enqueuedKey chainString e :: seen) es

/-- Two entries are the same VAA: same emitter chain, emitter address and
sequence. -/
def SameTriple (a b : EnqueuedVaaItem) : Prop :=
  a.EmitterChain = b.EmitterChain ∧ a.EmitterAddress = b.EmitterAddress ∧
  a.Sequence = b.Sequence

instance (a b : EnqueuedVaaItem) : Decidable (SameTriple a b) :=
  inferInstanceAs (Decidable (a.EmitterChain = b.EmitterChain ∧
    a.EmitterAddress = b.EmitterAddress ∧ a.Sequence = b.Sequence))

/-- What the verb `%s` prints for a `vaa.ChainID`, the `String()` method of the
wormhole SDK, which is outside this repository: a text for every chain, and
never the same text for two chains (the name of a known chain, the number of
an unknown one). -/
structure ChainPrinter where
  print : ChainID → String
  injective : Function.Injective print

/-- Neither the emitter address nor the sequence of the entry contains the
separator `/` of the key. -/
def SlashFree (e : EnqueuedVaaItem) : Prop :=
  '/' ∉ e.EmitterAddress.data ∧ '/' ∉ e.Sequence.data

/-- The de-duplication never drops a distinct VAA: two entries of the list
that differ in emitter chain, emitter address or sequence have different keys,
and both are in the result. -/
def NeverDropsDistinct (chainString : ChainID → String)
    (entries : List EnqueuedVaaItem) : Prop :=
  ∀ e1 ∈ entries, ∀ e2 ∈ entries, ¬ SameTriple e1 e2 →
    enqueuedKey chainString e1 ≠ enqueuedKey chainString e2 ∧
    e1 ∈ dedupEnqueued chainString entries ∧ e2 ∈ dedupEnqueued chainString entries

end Governor

namespace Sample

/-- Two different VAAs of Ethereum whose keys are the same text:
`ethereum/0xab/c/7`. -/
def collidingVaas : List Governor.EnqueuedVaaItem :=
  [ { EmitterChain := 2, EmitterAddress := "0xab/c", Sequence := "7",
      ReleaseTime := 10, NotionalValue := 5, TxHash := "0x01" },
    { EmitterChain := 2, EmitterAddress := "0xab", Sequence := "c/7",
      ReleaseTime := 11, NotionalValue := 6, TxHash := "0x02" } ]

/-- A VAA listed twice with different release times, then another VAA. -/
def repeatedVaas : List Governor.EnqueuedVaaItem :=
  [ { EmitterChain := 2, EmitterAddress := "0xabc", Sequence := "7",
      ReleaseTime := 10, NotionalValue := 5, TxHash := "0x01" },
    { EmitterChain := 2, EmitterAddress := "0xabc", Sequence := "7",
      ReleaseTime := 12, NotionalValue := 5, TxHash := "0x01" },
    { EmitterChain := 1, EmitterAddress := "0xdef", Sequence := "7",
      ReleaseTime := 11, NotionalValue := 6, TxHash := "0x02" } ]

/-- A chain printed as its number in decimal digits. -/
def decimal (c : Governor.ChainID) : String :=
  String.mk ((Nat.digits 10 c).map Nat.digitChar).reverse

/-- A repository returning `repeatedVaas`. -/
def repeatedRepo : Governor.Repository String String :=
  { GetAvailableNotionalByChainID := fun _ => ([], none),
    GetMaxNotionalAvailableByChainID := fun _ => ("", none),
    GetEnqueuedVaas := (repeatedVaas, none) }

/-- A governor service on `repeatedRepo`. -/
def repeatedService : Governor.Service String String :=
  Governor.NewService [(1, "solana"), (2, "ethereum")] repeatedRepo

end Sample

/-! ## contract-watcher/cmd/service/run.go: budgets, endpoints and Run -/

namespace Service

open Watcher

/-- What a returned watcher was built with: its chain, the budget and window
of the limiter its client calls through, and the endpoint of its client. -/
structure Wiring where
  chain : String
  rate : Int
  per : Duration
  url : String
  deriving DecidableEq, Repr

/-- The wiring of a watcher. -/
def wiringOf (w : ContractWatcher) : Wiring :=
  { chain := w.blockchain, rate := w.limiter.rate, per := w.limiter.per,
    url := w.client.url }

/-- The budgets of the service configuration, chain by chain: every chain
with its own requests-per-second value, the EVM chains with that of Ankr. -/
def perChainBudget (cfg : ServiceConfiguration) : rateLimitConfig :=
  { ankr := cfg.AnkrRequestsPerSecond,
    solana := cfg.SolanaRequestsPerSecond,
    terra := cfg.TerraRequestsPerSecond,
    aptos := cfg.AptosRequestsPerSecond,
    oasis := cfg.OasisRequestsPerSecond,
    moonbeam := cfg.MoonbeamRequestsPerSecond,
    celo := cfg.CeloRequestsPerSecond,
    optimism := cfg.OptimismRequestsPerSecond,
    arbitrum := cfg.ArbitrumRequestsPerSecond }

/-- The wiring the specification asks for: every configured chain with its own
budget per second and its own endpoint, the EVM chains with those of Ankr, in
the order newWatchers visits the chains. -/
def expectedWiring (w : watchersConfig) (cfg : ServiceConfiguration) : List Wiring :=
  w.evms.map (fun c =>
      { chain := c.Name, rate := cfg.AnkrRequestsPerSecond, per := Second,
        url := cfg.AnkrUrl }) ++
    List.reduceOption
      [ w.solana.map (fun c =>
          { chain := c.Name, rate := cfg.SolanaRequestsPerSecond, per := Second,
            url := cfg.SolanaUrl }),
        w.terra.map (fun c =>
          { chain := c.Name, rate := cfg.TerraRequestsPerSecond, per := Second,
            url := cfg.TerraUrl }),
        w.aptos.map (fun c =>
          { chain := c.Name, rate := cfg.AptosRequestsPerSecond, per := Second,
            url := cfg.AptosUrl }),
        w.oasis.map (fun c =>
          { chain := c.Name, rate := cfg.OasisRequestsPerSecond, per := Second,
            url := cfg.OasisUrl }),
        w.moonbeam.map (fun c =>
          { chain := c.Name, rate := cfg.MoonbeamRequestsPerSecond, per := Second,
            url := cfg.MoonbeamUrl }),
        w.celo.map (fun c =>
          { chain := c.Name, rate := cfg.CeloRequestsPerSecond, per := Second,
            url := cfg.CeloUrl }),
        w.optimism.map (fun c =>
          { chain := c.Name, rate := cfg.OptimismRequestsPerSecond, per := Second,
            url := cfg.OptimismUrl }),
        w.arbitrum.map (fun c =>
          { chain := c.Name, rate := cfg.ArbitrumRequestsPerSecond, per := Second,
            url := cfg.ArbitrumUrl }) ]

end Service

namespace Sample

open Watcher Service

/-- A selection with the Optimism and Arbitrum pointers set, and the budgets
of the mainnet sample configuration. -/
def layer2Watchers : watchersConfig :=
  { watchersConfig.zero with
    optimism := some (evmChain 24 "optimism" "0x1d68124e65fafc907325e3edbf8c4d84499daa8b" 100),
    arbitrum := some (evmChain 23 "arbitrum" "0x0b2402144bb366a632d14b83f244d2e0e21bd39c" 100),
    rateLimit := perChainBudget (config "mainnet") }

/-- The watchers the body of newWatchers returns for `layer2Watchers`. -/
def layer2Result : List ContractWatcher :=
  match buildWatchers (consts solanaAddress) (config "mainnet") layer2Watchers
      repo metrics logger 0 with
  | Result.returned ws _ => ws
  | Result.fatal _ => []
  | Result.panic _ => []

end Sample

/-! ## contract-watcher/cmd/service/run.go: Run -/

namespace Service

open Watcher

/-- The fields of `config.ServiceConfiguration` that Run and newAlertClient
read besides those newWatchers reads. -/
structure RunSettings where
  LogLevel : String
  MongoURI : String
  MongoDatabase : String
  Environment : String
  Port : String
  PprofEnabled : Bool
  AlertEnabled : Bool
  AlertApiKey : String
  deriving DecidableEq, Repr

/-- The signals Run asks to be notified of. -/
inductive Signal where
  | SIGINT
  | SIGTERM
  deriving DecidableEq, Repr

/-- The case of the `select` of Run that fires (run.go, lines 117-122). -/
inductive Wake where
  | rootCtxDone
  | signal (s : Signal)
  deriving DecidableEq, Repr

/-- What the world outside Run answers: the package-level constants, the
result of `config.New`, the error of `db.New` and of `alert.NewAlertService`
(`none` is nil), and the case of the `select` that fires. -/
structure World where
  consts : Consts
  configNew : Except String (ServiceConfiguration × RunSettings)
  dbNew : Option String
  alertService : Option String
  wake : Wake

/-- A call Run makes, with the arguments that matter here; a context is
named by a number.  `Fatal` is a fatal log, which ends the process; `OsExit` is
the call `os.Exit`; `Panic` is a panic that leaves Run, which crashes the
process. -/
inductive Event where
  | ContextWithCancel (ctx : Nat)
  | ConfigNew (ctx : Nat)
  | LoggerNew (name : String) (level : String)
  | Log (level : String) (msg : String)
  | Fatal (msg : String)
  | DbNew (ctx : Nat) (uri : String) (database : String)
  | NewHealthChecks (ctx : Nat)
  | NewPrometheusMetrics (environment : String)
  | NewDummyClient
  | NewAlertService (environment : String) (apiKey : String) (enabled : Bool)
  | NewRepository
  | NewProcessor (watchers : List ContractWatcher)
  | ProcessorStart (ctx : Nat)
  | NewServer (port : String) (pprofEnabled : Bool) (healthChecks : List String)
  | ServerStart
  | SignalNotify (signals : List Signal)
  | Select (wake : Wake)
  | RootCtxCancel (ctx : Nat)
  | ProcessorClose
  | DbClose
  | ServerStop
  | OsExit (code : Int)
  | Panic (msg : String)
  deriving DecidableEq, Repr

/-- A value recovered from a panic: an `exitCode` or anything else, such as a
run-time error. -/
inductive PanicValue where
  | exitCode (e : Int)
  | other (msg : String)
  deriving DecidableEq, Repr

/-- handleExit (run.go, lines 32-39), for the value `recover()` returns
(`none` is nil: no panic is under way). -/
def handleExit : Option PanicValue → List Event
  | none => []
  | some (PanicValue.exitCode e) => [Event.OsExit e]
  -- not an Exit, bubble up
  | some (PanicValue.other msg) => [Event.Panic msg]

/-- True for the log calls, which only write a message. -/
def Event.isLog : Event → Bool
  | .Log _ _ => true
  | _ => false

/-- True for the creation of a cancellation context. -/
def Event.isContextCreate : Event → Bool
  | .ContextWithCancel _ => true
  | _ => false

/-- True for the four calls of the shutdown: cancelling the context, closing
the processor, closing the database connection, stopping the server. -/
def Event.isShutdown : Event → Bool
  | .RootCtxCancel _ => true
  | .ProcessorClose => true
  | .DbClose => true
  | .ServerStop => true
  | _ => false

/-- The log call of the `select` case that fired (run.go, lines 118-121). -/
def wakeLog : Wake → Event
  | Wake.rootCtxDone => Event.Log "WARN" "Terminating with root context cancelled."
  | Wake.signal _ => Event.Log "INFO" "Terminating with signal."

/-- True for the calls Run makes between the creation of the root context and
the creation of the watchers. -/
def Event.isStartup : Event → Bool
  | .ConfigNew _ => true
  | .LoggerNew _ _ => true
  | .Log _ _ => true
  | .DbNew _ _ _ => true
  | .NewHealthChecks _ => true
  | .NewPrometheusMetrics _ => true
  | .NewDummyClient => true
  | .NewAlertService _ _ _ => true
  | .NewRepository => true
  | _ => false

/-- The calls of Run from the creation of the processor on (run.go, lines
104-133), for the watchers created, the settings and the case of the `select`
that fires. -/
def runFromProcessor (watchers : List ContractWatcher) (settings : RunSettings)
    (wake : Wake) : List Event :=
  [ Event.NewProcessor watchers,
    Event.ProcessorStart 0,
    Event.NewServer settings.Port settings.PprofEnabled ["health.Mongo"],
    Event.ServerStart,
    Event.Log "INFO" "Started wormhole-explorer-contract-watcher",
    Event.SignalNotify [Signal.SIGINT, Signal.SIGTERM],
    Event.Select wake,
    wakeLog wake,
    Event.Log "INFO" "root context cancelled, exiting...",
    Event.RootCtxCancel 0,
    Event.Log "INFO" "Closing processor ...",
    Event.ProcessorClose,
    Event.Log "INFO" "Closing database connections ...",
    Event.DbClose,
    Event.Log "INFO" "Closing Http server ...",
    Event.ServerStop,
    Event.Log "INFO" "Finished wormhole-explorer-contract-watcher" ]

/-- newHealthChecks (run.go, lines 136-138): the Mongo check, and a nil error. -/
def newHealthChecks (_ctx : Nat) : List String × Option String :=
  (["health.Mongo"], none)

/-- newAlertClient (run.go, lines 270-285): the calls it makes, and whether it
returned (`false`: it ended in the fatal log). -/
def newAlertClient (w : World) (config : RunSettings) : List Event × Bool :=
  if !config.AlertEnabled then ([Event.NewDummyClient], true)
  else
    match w.alertService with
    | some _ =>
      ([Event.NewAlertService config.Environment config.AlertApiKey config.AlertEnabled,
        Event.Fatal "Error creating alert client"], false)
    | none =>
      ([Event.NewAlertService config.Environment config.AlertApiKey config.AlertEnabled],
        true)

/-- Run (run.go, lines 66-134): the calls it makes, in order.  The deferred
handleExit runs when Run returns and when a panic unwinds it (the panic of
`ratelimit.New` inside newWatchers), not after a fatal log, which exits at
once. -/
def Run (w : World) : List Event :=
  let rootCtx : Nat := 0
  let t0 := [Event.ContextWithCancel rootCtx, Event.ConfigNew rootCtx]
  match w.configNew with
  | Except.error _ => t0 ++ [Event.Fatal "Error creating config"]
  | Except.ok (config, settings) =>
    let logger : Logger := { id := 0 }
    let t1 := t0 ++
      [ Event.LoggerNew "wormhole-explorer-contract-watcher" settings.LogLevel,
        Event.Log "INFO" "Starting wormhole-explorer-contract-watcher ...",
        -- setup DB connection
        Event.DbNew rootCtx settings.MongoURI settings.MongoDatabase ]
    match w.dbNew with
    | some _ => t1 ++ [Event.Fatal "failed to connect MongoDB"]
    | none =>
      -- get health check functions.
      match newHealthChecks rootCtx with
      | (_, some _) =>
        t1 ++ [Event.NewHealthChecks rootCtx, Event.Fatal "failed to create health checks"]
      | (healthChecks, none) =>
        -- create metrics client
        let metrics : Metrics := { id := 1 }
        let t2 := t1 ++
          [Event.NewHealthChecks rootCtx, Event.NewPrometheusMetrics settings.Environment]
        -- create alert client
        match newAlertClient w settings with
        | (calls, false) => t2 ++ calls
        | (calls, true) =>
          -- create repositories
          let repo : Repository := { id := 2 }
          let t3 := t2 ++ calls ++ [Event.NewRepository]
          -- create watchers
          match newWatchers w.consts config repo metrics logger 0 with
          | Result.fatal msg => t3 ++ [Event.Fatal msg]
          | Result.panic msg => t3 ++ handleExit (some (PanicValue.other msg))
          | Result.returned watchers _ =>
            t3 ++
              [ -- create processor
                Event.NewProcessor watchers,
                Event.ProcessorStart rootCtx,
                -- create and start server.
                Event.NewServer settings.Port settings.PprofEnabled healthChecks,
                Event.ServerStart,
                Event.Log "INFO" "Started wormhole-explorer-contract-watcher",
                -- Waiting for signal
                Event.SignalNotify [Signal.SIGINT, Signal.SIGTERM],
                Event.Select w.wake,
                wakeLog w.wake,
                Event.Log "INFO" "root context cancelled, exiting...",
                Event.RootCtxCancel rootCtx,
                Event.Log "INFO" "Closing processor ...",
                Event.ProcessorClose,
                Event.Log "INFO" "Closing database connections ...",
                Event.DbClose,
                Event.Log "INFO" "Closing Http server ...",
                Event.ServerStop,
                Event.Log "INFO" "Finished wormhole-explorer-contract-watcher" ] ++
              handleExit none

end Service

namespace Sample

open Watcher Service

/-- The settings of a run with alerts switched off. -/
def settings : RunSettings :=
  { LogLevel := "INFO", MongoURI := "mongodb://localhost:27017", MongoDatabase := "wormhole",
    Environment := "production", Port := "8000", PprofEnabled := false,
    AlertEnabled := false, AlertApiKey := "" }

/-- A world in which the start succeeds on mainnet and SIGTERM arrives. -/
def world : World :=
  { consts := consts solanaAddress,
    configNew := Except.ok (config "mainnet", settings),
    dbNew := none,
    alertService := none,
    wake := Wake.signal Signal.SIGTERM }

end Sample

/-! ## Theorems: analytics configuration -/

namespace AnalyticsConfig

/-- C10: IsQueueConsumer returns true exactly when ConsumerMode is the string
"QUEUE"; the comparison is case-sensitive (a configuration whose mode is
"queue" is not a queue consumer), and a configuration holding the declared
default consumer mode is a queue consumer. -/
theorem isQueueConsumer_iff :
    (∀ c : Configuration, c.IsQueueConsumer = true ↔ c.ConsumerMode = "QUEUE") ∧
    (∀ c : Configuration, ({ c with ConsumerMode := "queue" }).IsQueueConsumer = false) ∧
    (∀ c : Configuration,
      ({ c with ConsumerMode := defaultConsumerMode }).IsQueueConsumer = true) := by
  refine ⟨?_, ?_, ?_⟩
  · intro c
    simp [Configuration.IsQueueConsumer]
  · intro c
    simp [Configuration.IsQueueConsumer]
  · intro c
    simp [Configuration.IsQueueConsumer, defaultConsumerMode]

end AnalyticsConfig

/-! ## Theorems: governor service -/

namespace Governor

/-- A key is absent from the map exactly when the lookup finds nothing. -/
theorem lookup_eq_none_iff_not_key (m : List (ChainID × String)) (c : ChainID) :
    m.lookup c = none ↔ c ∉ m.map Prod.fst := by
  induction m with
  | nil => simp
  | cons kv rest ih =>
    obtain ⟨k, v⟩ := kv
    by_cases h : c = k
    · subst h
      simp [List.lookup]
    · have hb : (c == k) = false := by simpa using h
      simp [List.lookup, hb, ih, h]

/-- C5: for a chainID that is not a key of supportedChainIDs, both
GetAvailableNotionalByChainID and GetMaxNotionalAvailableByChainID return a nil
response with ErrNotFound and make no repository call; for a chainID that is a
key, each makes exactly one repository call, with the query for that chain, and
returns a response whose Data is the repository value, with the repository
error. -/
theorem getByChainID_supported {D M : Type} (s : Service D M) (p : Option Pagination)
    (chainID : ChainID) :
    (chainID ∉ s.supportedChainIDs.map Prod.fst →
      ((s.GetAvailableNotionalByChainID p chainID).value = none ∧
        (s.GetAvailableNotionalByChainID p chainID).err = some Error.ErrNotFound ∧
        (s.GetAvailableNotionalByChainID p chainID).calls = []) ∧
      ((s.GetMaxNotionalAvailableByChainID chainID).value = none ∧
        (s.GetMaxNotionalAvailableByChainID chainID).err = some Error.ErrNotFound ∧
        (s.GetMaxNotionalAvailableByChainID chainID).calls = [])) ∧
    (chainID ∈ s.supportedChainIDs.map Prod.fst →
      ((s.GetAvailableNotionalByChainID p chainID).value =
          some { Data := (s.repo.GetAvailableNotionalByChainID
            { pagination := p, chainID := some chainID }).1 } ∧
        (s.GetAvailableNotionalByChainID p chainID).err =
          (s.repo.GetAvailableNotionalByChainID
            { pagination := p, chainID := some chainID }).2 ∧
        (s.GetAvailableNotionalByChainID p chainID).calls =
          [RepoCall.GetAvailableNotionalByChainID
            { pagination := p, chainID := some chainID }]) ∧
      ((s.GetMaxNotionalAvailableByChainID chainID).value =
          some { Data := (s.repo.GetMaxNotionalAvailableByChainID
            { pagination := none, chainID := some chainID }).1 } ∧
        (s.GetMaxNotionalAvailableByChainID chainID).err =
          (s.repo.GetMaxNotionalAvailableByChainID
            { pagination := none, chainID := some chainID }).2 ∧
        (s.GetMaxNotionalAvailableByChainID chainID).calls =
          [RepoCall.GetMaxNotionalAvailableByChainID
            { pagination := none, chainID := some chainID }])) := by
  constructor
  · intro h
    have hl := (lookup_eq_none_iff_not_key s.supportedChainIDs chainID).mpr h
    simp [Service.GetAvailableNotionalByChainID, Service.GetMaxNotionalAvailableByChainID, hl]
  · intro h
    have hl : s.supportedChainIDs.lookup chainID ≠ none := fun hn =>
      (lookup_eq_none_iff_not_key s.supportedChainIDs chainID).mp hn h
    obtain ⟨name, hname⟩ := Option.ne_none_iff_exists'.mp hl
    simp [Service.GetAvailableNotionalByChainID, Service.GetMaxNotionalAvailableByChainID,
      hname, QueryNotionalLimit, NotionalLimitQuery.SetPagination, NotionalLimitQuery.SetChain]

/-- Witness of C5: chain 99 is not supported, chain 2 is. -/
theorem getByChainID_supported_witness :
    ((Sample.govService.GetAvailableNotionalByChainID none 99).value = none ∧
      (Sample.govService.GetAvailableNotionalByChainID none 99).err =
        some Error.ErrNotFound ∧
      (Sample.govService.GetAvailableNotionalByChainID none 99).calls = []) ∧
    (Sample.govService.GetMaxNotionalAvailableByChainID 2).err =
      (Sample.govService.repo.GetMaxNotionalAvailableByChainID
        { pagination := none, chainID := some 2 }).2 :=
  ⟨((getByChainID_supported Sample.govService none 99).1 (by decide)).1,
   ((getByChainID_supported Sample.govService none 2).2 (by decide)).2.2.1⟩

end Governor

namespace Governor

/-- One loop iteration keeps the invariant. -/
theorem dedupStep_inv (chainString : ChainID → String) (seen : List EnqueuedVaaItem)
    (st : List EnqueuedVaaItem × List String) (e : EnqueuedVaaItem)
    (h : DedupInv chainString seen st) :
    DedupInv chainString (seen ++ [e]) (dedupStep chainString st e) := by
  obtain ⟨hmap, hnodup, hcover, hsub⟩ := h
  unfold dedupStep
  by_cases hk : enqueuedKey chainString e ∈ st.2
  · simp only [hk, if_true]
    refine ⟨hmap, hnodup, ?_, ?_⟩
    · intro x hx
      rcases List.mem_append.mp hx with hx | hx
      · exact hcover x hx
      · have hxe : x = e := by simpa using hx
        subst hxe
        exact (hmap _).mp hk
    · intro r hr
      exact List.mem_append.mpr (Or.inl (hsub r hr))
  · simp only [hk, if_false]
    have hk2 : enqueuedKey chainString e ∉ st.1.map (enqueuedKey chainString) :=
      fun hin => hk ((hmap _).mpr hin)
    refine ⟨?_, ?_, ?_, ?_⟩
    · intro k
      simp only [List.mem_cons, List.map_append, List.map_cons, List.map_nil,
        List.mem_append, List.mem_singleton]
      rw [hmap k]
      tauto
    · simp only [List.map_append, List.map_cons, List.map_nil]
      rw [List.nodup_append]
      refine ⟨hnodup, List.nodup_singleton _, ?_⟩
      intro a ha hb
      have hae : a = enqueuedKey chainString e := by simpa using hb
      subst hae
      exact hk2 ha
    · intro x hx
      simp only [List.map_append, List.map_cons, List.map_nil, List.mem_append,
        List.mem_singleton]
      rcases List.mem_append.mp hx with hx | hx
      · exact Or.inl (hcover x hx)
      · have hxe : x = e := by simpa using hx
        subst hxe
        exact Or.inr rfl
    · intro r hr
      rcases List.mem_append.mp hr with hr | hr
      · exact List.mem_append.mpr (Or.inl (hsub r hr))
      · exact List.mem_append.mpr (Or.inr hr)

/-- The whole loop keeps the invariant. -/
theorem dedupFold_inv (chainString : ChainID → String) (entries : List EnqueuedVaaItem) :
    ∀ (seen : List EnqueuedVaaItem) (st : List EnqueuedVaaItem × List String),
      DedupInv chainString seen st →
      DedupInv chainString (seen ++ entries) (entries.foldl (dedupStep chainString) st) := by
  induction entries with
  | nil =>
    intro seen st h
    simpa using h
  | cons e rest ih =>
    intro seen st h
    have h1 := ih (seen ++ [e]) (dedupStep chainString st e)
      (dedupStep_inv chainString seen st e h)
    simpa [List.foldl, List.append_assoc] using h1

/-- The invariant at the end of the loop of GetEnqueuedVaas. -/
theorem dedupEnqueued_inv (chainString : ChainID → String)
    (entries : List EnqueuedVaaItem) :
    ((dedupEnqueued chainString entries).map (enqueuedKey chainString)).Nodup ∧
    (∀ e ∈ entries, enqueuedKey chainString e ∈
      (dedupEnqueued chainString entries).map (enqueuedKey chainString)) ∧
    (∀ r ∈ dedupEnqueued chainString entries, r ∈ entries) := by
  have h0 : DedupInv chainString [] ([], []) := by
    refine ⟨?_, ?_, ?_, ?_⟩ <;> simp
  have h := dedupFold_inv chainString entries [] ([], []) h0
  obtain ⟨_, hnodup, hcover, hsub⟩ := h
  refine ⟨hnodup, ?_, ?_⟩
  · intro e he
    exact hcover e (by simpa using he)
  · intro r hr
    simpa using hsub r hr

end Governor


/-! ## Theorems: watcher builders -/

namespace Builder

open Watcher

/-- What CreateEVMWatcher returns for a budget other than 0. -/
theorem CreateEVMWatcher_eq (rateLimit : Int) (chainURL : String)
    (wb : WatcherBlockchainAddresses) (repo : Repository) (metrics : Metrics)
    (logger : Logger) (n : Nat) (h : rateLimit ≠ 0) :
    CreateEVMWatcher rateLimit chainURL wb repo metrics logger n =
      Result.returned (ContractWatcher.NewEVMWatcher
        { id := n + 1, sdk := SDK.Ankr, url := chainURL,
          limiter := { id := n, rate := rateLimit, per := Second },
          metrics := metrics, opts := [] } repo
        { ChainID := wb.ChainID, Blockchain := wb.Name, SizeBlocks := wb.SizeBlocks,
          WaitSeconds := wb.WaitSeconds, InitialBlock := wb.InitialBlock,
          MethodsByAddress := wb.MethodsByAddress } metrics logger) (n + 2) := by
  show Proc.bind (ratelimitNew rateLimit Second) _ n = _
  unfold Proc.bind ratelimitNew
  rw [if_neg h]
  rfl

/-- CreateEVMWatcher panics for the budget 0. -/
theorem CreateEVMWatcher_zero (chainURL : String)
    (wb : WatcherBlockchainAddresses) (repo : Repository) (metrics : Metrics)
    (logger : Logger) (n : Nat) :
    CreateEVMWatcher 0 chainURL wb repo metrics logger n = Result.panic divideByZero := rfl

/-- If CreateEVMWatcher returns, the budget is not 0 and the watcher is the
one built from the arguments. -/
theorem CreateEVMWatcher_returned (rateLimit : Int) (chainURL : String)
    (wb : WatcherBlockchainAddresses) (repo : Repository) (metrics : Metrics)
    (logger : Logger) (n : Nat) (w : ContractWatcher) (n1 : Nat)
    (hret : CreateEVMWatcher rateLimit chainURL wb repo metrics logger n = Result.returned w n1) :
    rateLimit ≠ 0 ∧ n1 = n + 2 ∧
      w = ContractWatcher.NewEVMWatcher
        { id := n + 1, sdk := SDK.Ankr, url := chainURL,
          limiter := { id := n, rate := rateLimit, per := Second },
          metrics := metrics, opts := [] } repo
        { ChainID := wb.ChainID, Blockchain := wb.Name, SizeBlocks := wb.SizeBlocks,
          WaitSeconds := wb.WaitSeconds, InitialBlock := wb.InitialBlock,
          MethodsByAddress := wb.MethodsByAddress } metrics logger := by
  by_cases h : rateLimit = 0
  · subst h
    rw [CreateEVMWatcher_zero] at hret
    cases hret
  · rw [CreateEVMWatcher_eq _ _ _ _ _ _ _ h] at hret
    injection hret with hw hn
    exact ⟨h, hn.symm, hw.symm⟩

/-- What CreateTerraWatcher returns for a budget other than 0. -/
theorem CreateTerraWatcher_eq (rateLimit : Int) (chainURL : String)
    (wb : WatcherBlockchain) (logger : Logger) (repo : Repository)
    (metrics : Metrics) (n : Nat) (h : rateLimit ≠ 0) :
    CreateTerraWatcher rateLimit chainURL wb logger repo metrics n =
      Result.returned (ContractWatcher.NewTerraWatcher
        { id := n + 1, sdk := SDK.Terra, url := chainURL,
          limiter := { id := n, rate := rateLimit, per := Second },
          metrics := metrics, opts := [] }
        { ChainID := wb.ChainID, Blockchain := wb.Name, ContractAddress := wb.Address,
          WaitSeconds := wb.WaitSeconds, InitialBlock := wb.InitialBlock }
        repo metrics logger) (n + 2) := by
  show Proc.bind (ratelimitNew rateLimit Second) _ n = _
  unfold Proc.bind ratelimitNew
  rw [if_neg h]
  rfl

/-- CreateTerraWatcher panics for the budget 0. -/
theorem CreateTerraWatcher_zero (chainURL : String)
    (wb : WatcherBlockchain) (logger : Logger) (repo : Repository)
    (metrics : Metrics) (n : Nat) :
    CreateTerraWatcher 0 chainURL wb logger repo metrics n = Result.panic divideByZero := rfl

/-- If CreateTerraWatcher returns, the budget is not 0 and the watcher is the
one built from the arguments. -/
theorem CreateTerraWatcher_returned (rateLimit : Int) (chainURL : String)
    (wb : WatcherBlockchain) (logger : Logger) (repo : Repository)
    (metrics : Metrics) (n : Nat) (w : ContractWatcher) (n1 : Nat)
    (hret : CreateTerraWatcher rateLimit chainURL wb logger repo metrics n = Result.returned w n1) :
    rateLimit ≠ 0 ∧ n1 = n + 2 ∧
      w = ContractWatcher.NewTerraWatcher
        { id := n + 1, sdk := SDK.Terra, url := chainURL,
          limiter := { id := n, rate := rateLimit, per := Second },
          metrics := metrics, opts := [] }
        { ChainID := wb.ChainID, Blockchain := wb.Name, ContractAddress := wb.Address,
          WaitSeconds := wb.WaitSeconds, InitialBlock := wb.InitialBlock }
        repo metrics logger := by
  by_cases h : rateLimit = 0
  · subst h
    rw [CreateTerraWatcher_zero] at hret
    cases hret
  · rw [CreateTerraWatcher_eq _ _ _ _ _ _ _ h] at hret
    injection hret with hw hn
    exact ⟨h, hn.symm, hw.symm⟩

/-- What CreateAptosWatcher returns for a budget other than 0. -/
theorem CreateAptosWatcher_eq (rateLimit : Int) (chainURL : String)
    (wb : WatcherBlockchain) (logger : Logger) (repo : Repository)
    (metrics : Metrics) (n : Nat) (h : rateLimit ≠ 0) :
    CreateAptosWatcher rateLimit chainURL wb logger repo metrics n =
      Result.returned (ContractWatcher.NewAptosWatcher
        { id := n + 1, sdk := SDK.Aptos, url := chainURL,
          limiter := { id := n, rate := rateLimit, per := Second },
          metrics := metrics, opts := [] }
        { Blockchain := wb.Name, ContractAddress := wb.Address, SizeBlocks := wb.SizeBlocks,
          WaitSeconds := wb.WaitSeconds, InitialBlock := wb.InitialBlock }
        repo metrics logger) (n + 2) := by
  show Proc.bind (ratelimitNew rateLimit Second) _ n = _
  unfold Proc.bind ratelimitNew
  rw [if_neg h]
  rfl

/-- CreateAptosWatcher panics for the budget 0. -/
theorem CreateAptosWatcher_zero (chainURL : String)
    (wb : WatcherBlockchain) (logger : Logger) (repo : Repository)
    (metrics : Metrics) (n : Nat) :
    CreateAptosWatcher 0 chainURL wb logger repo metrics n = Result.panic divideByZero := rfl

/-- If CreateAptosWatcher returns, the budget is not 0 and the watcher is the
one built from the arguments. -/
theorem CreateAptosWatcher_returned (rateLimit : Int) (chainURL : String)
    (wb : WatcherBlockchain) (logger : Logger) (repo : Repository)
    (metrics : Metrics) (n : Nat) (w : ContractWatcher) (n1 : Nat)
    (hret : CreateAptosWatcher rateLimit chainURL wb logger repo metrics n = Result.returned w n1) :
    rateLimit ≠ 0 ∧ n1 = n + 2 ∧
      w = ContractWatcher.NewAptosWatcher
        { id := n + 1, sdk := SDK.Aptos, url := chainURL,
          limiter := { id := n, rate := rateLimit, per := Second },
          metrics := metrics, opts := [] }
        { Blockchain := wb.Name, ContractAddress := wb.Address, SizeBlocks := wb.SizeBlocks,
          WaitSeconds := wb.WaitSeconds, InitialBlock := wb.InitialBlock }
        repo metrics logger := by
  by_cases h : rateLimit = 0
  · subst h
    rw [CreateAptosWatcher_zero] at hret
    cases hret
  · rw [CreateAptosWatcher_eq _ _ _ _ _ _ _ h] at hret
    injection hret with hw hn
    exact ⟨h, hn.symm, hw.symm⟩

/-- What CreateSolanaWatcher returns when the address parses and the budget is
not 0. -/
theorem CreateSolanaWatcher_ok (parse : String → Except String PublicKey) (rateLimit : Int)
    (chainURL : String) (wb : WatcherBlockchain) (logger : Logger) (repo : Repository)
    (metrics : Metrics) (n : Nat) (pk : PublicKey) (h : parse wb.Address = Except.ok pk)
    (hN : rateLimit ≠ 0) :
    CreateSolanaWatcher parse rateLimit chainURL wb logger repo metrics n =
      Result.returned (ContractWatcher.NewSolanaWatcher
        { id := n + 1, sdk := SDK.Solana, url := chainURL,
          limiter := { id := n, rate := rateLimit, per := Second },
          metrics := metrics, opts := [ClientOption.WithRetries 3 (10 * Second)] } repo
        { Blockchain := wb.Name, ContractAddress := pk, SizeBlocks := wb.SizeBlocks,
          WaitSeconds := wb.WaitSeconds, InitialBlock := wb.InitialBlock }
        metrics logger) (n + 2) := by
  unfold CreateSolanaWatcher
  rw [h]
  show Proc.bind (Proc.pure pk) (fun pk1 => Proc.bind (ratelimitNew rateLimit Second) _) n = _
  unfold Proc.bind Proc.pure ratelimitNew
  simp only [if_neg hN]
  rfl

/-- CreateSolanaWatcher ends in the fatal log when the address does not parse. -/
theorem CreateSolanaWatcher_error (parse : String → Except String PublicKey)
    (rateLimit : Int) (chainURL : String) (wb : WatcherBlockchain) (logger : Logger)
    (repo : Repository) (metrics : Metrics) (n : Nat) (e : String)
    (h : parse wb.Address = Except.error e) :
    CreateSolanaWatcher parse rateLimit chainURL wb logger repo metrics n =
      Result.fatal "failed to parse solana contract address" := by
  unfold CreateSolanaWatcher
  rw [h]
  rfl

/-- CreateSolanaWatcher panics for the budget 0 when the address parses. -/
theorem CreateSolanaWatcher_zero (parse : String → Except String PublicKey)
    (chainURL : String) (wb : WatcherBlockchain) (logger : Logger) (repo : Repository)
    (metrics : Metrics) (n : Nat) (pk : PublicKey) (h : parse wb.Address = Except.ok pk) :
    CreateSolanaWatcher parse 0 chainURL wb logger repo metrics n =
      Result.panic divideByZero := by
  unfold CreateSolanaWatcher
  rw [h]
  rfl

/-- If CreateSolanaWatcher returns, the address parsed, the budget is not 0
and the watcher is the one built from the arguments. -/
theorem CreateSolanaWatcher_returned (parse : String → Except String PublicKey)
    (rateLimit : Int) (chainURL : String) (wb : WatcherBlockchain) (logger : Logger)
    (repo : Repository) (metrics : Metrics) (n : Nat) (w : ContractWatcher) (n1 : Nat)
    (hret : CreateSolanaWatcher parse rateLimit chainURL wb logger repo metrics n =
      Result.returned w n1) :
    ∃ pk, parse wb.Address = Except.ok pk ∧ rateLimit ≠ 0 ∧ n1 = n + 2 ∧
      w = ContractWatcher.NewSolanaWatcher
        { id := n + 1, sdk := SDK.Solana, url := chainURL,
          limiter := { id := n, rate := rateLimit, per := Second },
          metrics := metrics, opts := [ClientOption.WithRetries 3 (10 * Second)] } repo
        { Blockchain := wb.Name, ContractAddress := pk, SizeBlocks := wb.SizeBlocks,
          WaitSeconds := wb.WaitSeconds, InitialBlock := wb.InitialBlock }
        metrics logger := by
  cases hp : parse wb.Address with
  | error e =>
    rw [CreateSolanaWatcher_error parse _ _ _ _ _ _ _ e hp] at hret
    cases hret
  | ok pk =>
    by_cases h : rateLimit = 0
    · subst h
      rw [CreateSolanaWatcher_zero parse _ _ _ _ _ _ pk hp] at hret
      cases hret
    · rw [CreateSolanaWatcher_ok parse _ _ _ _ _ _ _ pk hp h] at hret
      injection hret with hw hn
      exact ⟨pk, rfl, h, hn.symm, hw.symm⟩

/-- What the EVM-standard factory returns for a budget other than 0. -/
theorem CreateEvmStandardWatcher_eq (rateLimit : Int) (chainURL : String)
    (wb : WatcherBlockchainAddresses) (logger : Logger) (repo : Repository)
    (metrics : Metrics) (n : Nat) (h : rateLimit ≠ 0) :
    CreateEvmStandardWatcher rateLimit chainURL wb logger repo metrics n =
      Result.returned (ContractWatcher.NewEvmStandarWatcher
        { id := n + 1, sdk := SDK.Evm, url := chainURL,
          limiter := { id := n, rate := rateLimit, per := Second },
          metrics := metrics, opts := [] }
        { ChainID := wb.ChainID, Blockchain := wb.Name, SizeBlocks := wb.SizeBlocks,
          WaitSeconds := wb.WaitSeconds, InitialBlock := wb.InitialBlock,
          MethodsByAddress := wb.MethodsByAddress } repo metrics logger) (n + 2) := by
  unfold CreateEvmStandardWatcher
  rw [if_neg h]

/-- The EVM-standard factory panics for the budget 0. -/
theorem CreateEvmStandardWatcher_zero (chainURL : String)
    (wb : WatcherBlockchainAddresses) (logger : Logger) (repo : Repository)
    (metrics : Metrics) (n : Nat) :
    CreateEvmStandardWatcher 0 chainURL wb logger repo metrics n =
      Result.panic divideByZero := rfl

/-- If the EVM-standard factory returns, the budget is not 0 and the watcher
is the one built from the arguments. -/
theorem CreateEvmStandardWatcher_returned (rateLimit : Int) (chainURL : String)
    (wb : WatcherBlockchainAddresses) (logger : Logger) (repo : Repository)
    (metrics : Metrics) (n : Nat) (w : ContractWatcher) (n1 : Nat)
    (hret : CreateEvmStandardWatcher rateLimit chainURL wb logger repo metrics n =
      Result.returned w n1) :
    rateLimit ≠ 0 ∧ n1 = n + 2 ∧
      w = ContractWatcher.NewEvmStandarWatcher
        { id := n + 1, sdk := SDK.Evm, url := chainURL,
          limiter := { id := n, rate := rateLimit, per := Second },
          metrics := metrics, opts := [] }
        { ChainID := wb.ChainID, Blockchain := wb.Name, SizeBlocks := wb.SizeBlocks,
          WaitSeconds := wb.WaitSeconds, InitialBlock := wb.InitialBlock,
          MethodsByAddress := wb.MethodsByAddress } repo metrics logger := by
  by_cases h : rateLimit = 0
  · subst h
    rw [CreateEvmStandardWatcher_zero] at hret
    cases hret
  · rw [CreateEvmStandardWatcher_eq _ _ _ _ _ _ _ h] at hret
    injection hret with hw hn
    exact ⟨h, hn.symm, hw.symm⟩

/-- What CreateOasisWatcher returns. -/
theorem CreateOasisWatcher_eq (rateLimit : Int) (chainURL : String)
    (wb : WatcherBlockchainAddresses) (logger : Logger) (repo : Repository)
    (metrics : Metrics) (n : Nat) :
    CreateOasisWatcher rateLimit chainURL wb logger repo metrics n =
      CreateEvmStandardWatcher rateLimit chainURL wb logger repo metrics n := by
  by_cases h : rateLimit = 0
  · subst h
    rfl
  · rw [CreateEvmStandardWatcher_eq _ _ _ _ _ _ _ h]
    show Proc.bind (ratelimitNew rateLimit Second) _ n = _
    unfold Proc.bind ratelimitNew
    rw [if_neg h]
    rfl

/-- What CreateMoonbeamWatcher returns. -/
theorem CreateMoonbeamWatcher_eq (rateLimit : Int) (chainURL : String)
    (wb : WatcherBlockchainAddresses) (logger : Logger) (repo : Repository)
    (metrics : Metrics) (n : Nat) :
    CreateMoonbeamWatcher rateLimit chainURL wb logger repo metrics n =
      CreateEvmStandardWatcher rateLimit chainURL wb logger repo metrics n := by
  by_cases h : rateLimit = 0
  · subst h
    rfl
  · rw [CreateEvmStandardWatcher_eq _ _ _ _ _ _ _ h]
    show Proc.bind (ratelimitNew rateLimit Second) _ n = _
    unfold Proc.bind ratelimitNew
    rw [if_neg h]
    rfl

/-- What CreateCeloWatcher returns. -/
theorem CreateCeloWatcher_eq (rateLimit : Int) (chainURL : String)
    (wb : WatcherBlockchainAddresses) (logger : Logger) (repo : Repository)
    (metrics : Metrics) (n : Nat) :
    CreateCeloWatcher rateLimit chainURL wb logger repo metrics n =
      CreateEvmStandardWatcher rateLimit chainURL wb logger repo metrics n := by
  by_cases h : rateLimit = 0
  · subst h
    rfl
  · rw [CreateEvmStandardWatcher_eq _ _ _ _ _ _ _ h]
    show Proc.bind (ratelimitNew rateLimit Second) _ n = _
    unfold Proc.bind ratelimitNew
    rw [if_neg h]
    rfl

/-- What CreateOptimismWatcher returns. -/
theorem CreateOptimismWatcher_eq (rateLimit : Int) (chainURL : String)
    (wb : WatcherBlockchainAddresses) (logger : Logger) (repo : Repository)
    (metrics : Metrics) (n : Nat) :
    CreateOptimismWatcher rateLimit chainURL wb logger repo metrics n =
      CreateEvmStandardWatcher rateLimit chainURL wb logger repo metrics n := by
  by_cases h : rateLimit = 0
  · subst h
    rfl
  · rw [CreateEvmStandardWatcher_eq _ _ _ _ _ _ _ h]
    show Proc.bind (ratelimitNew rateLimit Second) _ n = _
    unfold Proc.bind ratelimitNew
    rw [if_neg h]
    rfl

/-- What CreateArbitrumWatcher returns. -/
theorem CreateArbitrumWatcher_eq (rateLimit : Int) (chainURL : String)
    (wb : WatcherBlockchainAddresses) (logger : Logger) (repo : Repository)
    (metrics : Metrics) (n : Nat) :
    CreateArbitrumWatcher rateLimit chainURL wb logger repo metrics n =
      CreateEvmStandardWatcher rateLimit chainURL wb logger repo metrics n := by
  by_cases h : rateLimit = 0
  · subst h
    rfl
  · rw [CreateEvmStandardWatcher_eq _ _ _ _ _ _ _ h]
    show Proc.bind (ratelimitNew rateLimit Second) _ n = _
    unfold Proc.bind ratelimitNew
    rw [if_neg h]
    rfl

/-- Counterexample to C4 as stated: the client CreateTerraWatcher constructs
has no retry policy. -/
theorem terra_client_without_retry_policy :
    ¬ ∃ w n, CreateTerraWatcher 6 "https://terra.example"
        (Sample.oneChain 3 "terra" "terra10nmmwe8r3g99a9newtqa7a75xfgs2e8z87r2sf")
        Sample.logger Sample.repo Sample.metrics 0 = Result.returned w n ∧
      w.client.hasRetryPolicy := by
  rintro ⟨w, n, h, a, d, hmem⟩
  rw [CreateTerraWatcher_eq _ _ _ _ _ _ _ (by decide)] at h
  injection h with hw _
  subst hw
  simp [ContractWatcher.client] at hmem

/-- C4 (amended): every client the Solana builder constructs is constructed
with the retry policy of 3 attempts and 10 seconds, and every client the other
builders construct (Ankr, Terra, Aptos, and the EVM-standard ones of Oasis,
Moonbeam, Celo, Optimism, Arbitrum) is constructed from url, limiter and
metrics alone, with no retry option; for a budget other than 0 each builder
does construct its client (CreateSolanaWatcher when the address parses). -/
theorem builders_retry_options (parse : String → Except String PublicKey) (N : Int)
    (chainURL : String) (wbs : WatcherBlockchainAddresses) (wb : WatcherBlockchain)
    (logger : Logger) (repo : Repository) (metrics : Metrics) (n : Nat) :
    (Always (CreateSolanaWatcher parse N chainURL wb logger repo metrics n)
       (ClientOptsAre [ClientOption.WithRetries 3 (10 * Second)]) ∧
     Always (CreateEVMWatcher N chainURL wbs repo metrics logger n) (ClientOptsAre []) ∧
     Always (CreateTerraWatcher N chainURL wb logger repo metrics n) (ClientOptsAre []) ∧
     Always (CreateAptosWatcher N chainURL wb logger repo metrics n) (ClientOptsAre []) ∧
     Always (CreateOasisWatcher N chainURL wbs logger repo metrics n) (ClientOptsAre []) ∧
     Always (CreateMoonbeamWatcher N chainURL wbs logger repo metrics n) (ClientOptsAre []) ∧
     Always (CreateCeloWatcher N chainURL wbs logger repo metrics n) (ClientOptsAre []) ∧
     Always (CreateOptimismWatcher N chainURL wbs logger repo metrics n) (ClientOptsAre []) ∧
     Always (CreateArbitrumWatcher N chainURL wbs logger repo metrics n) (ClientOptsAre [])) ∧
    (N ≠ 0 →
      ((∃ pk, parse wb.Address = Except.ok pk) →
        BuildsClientWith (CreateSolanaWatcher parse N chainURL wb logger repo metrics n)
          [ClientOption.WithRetries 3 (10 * Second)]) ∧
      BuildsClientWith (CreateEVMWatcher N chainURL wbs repo metrics logger n) [] ∧
      BuildsClientWith (CreateTerraWatcher N chainURL wb logger repo metrics n) [] ∧
      BuildsClientWith (CreateAptosWatcher N chainURL wb logger repo metrics n) [] ∧
      BuildsClientWith (CreateOasisWatcher N chainURL wbs logger repo metrics n) [] ∧
      BuildsClientWith (CreateMoonbeamWatcher N chainURL wbs logger repo metrics n) [] ∧
      BuildsClientWith (CreateCeloWatcher N chainURL wbs logger repo metrics n) [] ∧
      BuildsClientWith (CreateOptimismWatcher N chainURL wbs logger repo metrics n) [] ∧
      BuildsClientWith (CreateArbitrumWatcher N chainURL wbs logger repo metrics n) []) := by
  constructor
  · refine ⟨?_, ?_, ?_, ?_, ?_, ?_, ?_, ?_, ?_⟩
    · intro w n1 h
      obtain ⟨pk, _, _, hn, hw⟩ := CreateSolanaWatcher_returned _ _ _ _ _ _ _ _ _ _ h
      subst hw
      rfl
    · intro w n1 h
      obtain ⟨_, hn, hw⟩ := CreateEVMWatcher_returned _ _ _ _ _ _ _ _ _ h
      subst hw
      rfl
    · intro w n1 h
      obtain ⟨_, hn, hw⟩ := CreateTerraWatcher_returned _ _ _ _ _ _ _ _ _ h
      subst hw
      rfl
    · intro w n1 h
      obtain ⟨_, hn, hw⟩ := CreateAptosWatcher_returned _ _ _ _ _ _ _ _ _ h
      subst hw
      rfl
    · intro w n1 h
      rw [CreateOasisWatcher_eq] at h
      obtain ⟨_, hn, hw⟩ := CreateEvmStandardWatcher_returned _ _ _ _ _ _ _ _ _ h
      subst hw
      rfl
    · intro w n1 h
      rw [CreateMoonbeamWatcher_eq] at h
      obtain ⟨_, hn, hw⟩ := CreateEvmStandardWatcher_returned _ _ _ _ _ _ _ _ _ h
      subst hw
      rfl
    · intro w n1 h
      rw [CreateCeloWatcher_eq] at h
      obtain ⟨_, hn, hw⟩ := CreateEvmStandardWatcher_returned _ _ _ _ _ _ _ _ _ h
      subst hw
      rfl
    · intro w n1 h
      rw [CreateOptimismWatcher_eq] at h
      obtain ⟨_, hn, hw⟩ := CreateEvmStandardWatcher_returned _ _ _ _ _ _ _ _ _ h
      subst hw
      rfl
    · intro w n1 h
      rw [CreateArbitrumWatcher_eq] at h
      obtain ⟨_, hn, hw⟩ := CreateEvmStandardWatcher_returned _ _ _ _ _ _ _ _ _ h
      subst hw
      rfl
  · intro hN
    refine ⟨?_, ?_, ?_, ?_, ?_, ?_, ?_, ?_, ?_⟩
    · rintro ⟨pk, hpk⟩
      exact ⟨_, _, CreateSolanaWatcher_ok _ _ _ _ _ _ _ _ pk hpk hN, rfl⟩
    · exact ⟨_, _, CreateEVMWatcher_eq _ _ _ _ _ _ _ hN, rfl⟩
    · exact ⟨_, _, CreateTerraWatcher_eq _ _ _ _ _ _ _ hN, rfl⟩
    · exact ⟨_, _, CreateAptosWatcher_eq _ _ _ _ _ _ _ hN, rfl⟩
    · exact ⟨_, _, (CreateOasisWatcher_eq _ _ _ _ _ _ _).trans
        (CreateEvmStandardWatcher_eq _ _ _ _ _ _ _ hN), rfl⟩
    · exact ⟨_, _, (CreateMoonbeamWatcher_eq _ _ _ _ _ _ _).trans
        (CreateEvmStandardWatcher_eq _ _ _ _ _ _ _ hN), rfl⟩
    · exact ⟨_, _, (CreateCeloWatcher_eq _ _ _ _ _ _ _).trans
        (CreateEvmStandardWatcher_eq _ _ _ _ _ _ _ hN), rfl⟩
    · exact ⟨_, _, (CreateOptimismWatcher_eq _ _ _ _ _ _ _).trans
        (CreateEvmStandardWatcher_eq _ _ _ _ _ _ _ hN), rfl⟩
    · exact ⟨_, _, (CreateArbitrumWatcher_eq _ _ _ _ _ _ _).trans
        (CreateEvmStandardWatcher_eq _ _ _ _ _ _ _ hN), rfl⟩

/-- Witness of C4 (amended): the Solana builder at the token bridge address. -/
theorem builders_retry_options_witness :
    BuildsClientWith (CreateSolanaWatcher Sample.PublicKeyFromBase58 5
      "https://solana.example" (Sample.oneChain 1 "solana" Sample.solanaAddress)
      Sample.logger Sample.repo Sample.metrics 0)
      [ClientOption.WithRetries 3 (10 * Second)] :=
  ((builders_retry_options Sample.PublicKeyFromBase58 5 "https://solana.example"
    (Sample.evmChain 2 "ethereum" "0x3ee18b2214aff97000d974cf647e7c347e8fa585" 100)
    (Sample.oneChain 1 "solana" Sample.solanaAddress)
    Sample.logger Sample.repo Sample.metrics 0).2 (by decide)).1 ⟨_, rfl⟩

end Builder
/-! ## Theorems: newWatchers -/

namespace Service

open Watcher

/-- The loop over `watchers.evms` appends one watcher per entry, in order. -/
theorem evmLoop_eq_map (g : WatcherBlockchainAddresses → ContractWatcher)
    (evms : List WatcherBlockchainAddresses) :
    ∀ init : List ContractWatcher,
      evms.foldl (fun acc w => acc ++ [g w]) init = init ++ evms.map g := by
  induction evms with
  | nil => intro init; simp
  | cons w rest ih =>
    intro init
    simp [List.foldl, ih, List.append_assoc]

/-- The body of newWatchers panics when the selected Ankr budget is 0. -/
theorem buildWatchers_zero (k : Consts) (config : ServiceConfiguration)
    (watchers : watchersConfig) (repo : Repository) (metrics : Metrics) (logger : Logger)
    (n : Nat) (hankr : watchers.rateLimit.ankr = 0) :
    buildWatchers k config watchers repo metrics logger n = Result.panic divideByZero := by
  show Proc.bind (ratelimitNew watchers.rateLimit.ankr Second) _ n = _
  unfold Proc.bind ratelimitNew
  rw [if_pos hankr]

/-- The body of newWatchers for an Ankr budget other than 0, with the two Ankr
allocations and the EVM loop evaluated. -/
theorem buildWatchers_eq (k : Consts) (config : ServiceConfiguration)
    (watchers : watchersConfig) (repo : Repository) (metrics : Metrics) (logger : Logger)
    (n : Nat) (hankr : watchers.rateLimit.ankr ≠ 0) :
    buildWatchers k config watchers repo metrics logger n =
      (do
        let result ← appendIfSet
          (watchers.evms.map (evmLoopWatcher
            { id := n + 1, sdk := SDK.Ankr, url := config.AnkrUrl,
              limiter := { id := n, rate := watchers.rateLimit.ankr, per := Second },
              metrics := metrics, opts := [] } repo metrics logger))
          watchers.solana (fun wb =>
          Builder.CreateSolanaWatcher k.PublicKeyFromBase58 watchers.rateLimit.solana
            config.SolanaUrl wb logger repo metrics)
        let result ← appendIfSet result watchers.terra (fun wb =>
          Builder.CreateTerraWatcher watchers.rateLimit.terra config.TerraUrl wb
            logger repo metrics)
        let result ← appendIfSet result watchers.aptos (fun wb =>
          Builder.CreateAptosWatcher watchers.rateLimit.aptos config.AptosUrl wb
            logger repo metrics)
        let result ← appendIfSet result watchers.oasis (fun wb =>
          Builder.CreateOasisWatcher watchers.rateLimit.oasis config.OasisUrl wb
            logger repo metrics)
        let result ← appendIfSet result watchers.moonbeam (fun wb =>
          Builder.CreateMoonbeamWatcher watchers.rateLimit.moonbeam config.MoonbeamUrl wb
            logger repo metrics)
        let result ← appendIfSet result watchers.celo (fun wb =>
          Builder.CreateCeloWatcher watchers.rateLimit.celo config.CeloUrl wb
            logger repo metrics)
        let result ← appendIfSet result watchers.optimism (fun wb =>
          Builder.CreateOptimismWatcher watchers.rateLimit.optimism config.OptimismUrl wb
            logger repo metrics)
        let result ← appendIfSet result watchers.arbitrum (fun wb =>
          Builder.CreateOptimismWatcher watchers.rateLimit.arbitrum config.ArbitrumUrl wb
            logger repo metrics)
        (pure result : Proc (List ContractWatcher))) (n + 2) := by
  have hfold := evmLoop_eq_map (evmLoopWatcher
    { id := n + 1, sdk := SDK.Ankr, url := config.AnkrUrl,
      limiter := { id := n, rate := watchers.rateLimit.ankr, per := Second },
      metrics := metrics, opts := [] } repo metrics logger) watchers.evms []
  simp only [List.nil_append] at hfold
  rw [← hfold]
  show Proc.bind (ratelimitNew watchers.rateLimit.ankr Second) _ n = _
  unfold Proc.bind ratelimitNew
  rw [if_neg hankr]
  rfl

/-- One `if p != nil` block followed by the rest of the function: a property
`Q` of the outcome holds if the state after the block satisfies `J` and `J`
gives `Q` for the rest. -/
theorem appendIfSet_bind {β γ : Type} (J : List ContractWatcher → Nat → Prop)
    (Q : Result γ → Prop) (result : List ContractWatcher) (p : Option β)
    (create : β → Proc ContractWatcher) (f : List ContractWatcher → Proc γ) (n : Nat)
    (hnone : p = none → J result n)
    (hsome : ∀ v, p = some v →
      (∀ msg, create v n = Result.fatal msg → Q (Result.fatal msg)) ∧
      (∀ msg, create v n = Result.panic msg → Q (Result.panic msg)) ∧
      (∀ w m, create v n = Result.returned w m → J (result ++ [w]) m))
    (hf : ∀ r m, J r m → Q (f r m)) :
    Q ((appendIfSet result p create >>= f) n) := by
  cases p with
  | none =>
    exact hf result n (hnone rfl)
  | some v =>
    obtain ⟨h1, h3, h2⟩ := hsome v rfl
    show Q (Proc.bind (Proc.bind (create v) fun w => Proc.pure (result ++ [w])) f n)
    unfold Proc.bind
    cases hc : create v n with
    | returned w m =>
      simp only [Proc.pure]
      exact hf _ _ (h2 w m hc)
    | fatal msg =>
      simp only []
      exact h1 msg hc
    | panic msg =>
      simp only []
      exact h3 msg hc

end Service
namespace Service

open Watcher

/-- The wiring invariant after the EVM loop. -/
theorem wiringInv_evms (c : Client) (repo : Repository) (metrics : Metrics)
    (logger : Logger) (evms : List WatcherBlockchainAddresses) (n : Nat)
    (hc : c.id < n) (hl : c.limiter.id < n) :
    WiringInv c (evms.map (evmLoopWatcher c repo metrics logger)) n := by
  refine ⟨?_, ?_, ?_⟩
  · intro w hw
    obtain ⟨e, _, rfl⟩ := List.mem_map.mp hw
    exact ⟨hl, hc⟩
  · unfold SharedOnlyByAnkr
    rw [List.pairwise_map]
    refine List.pairwise_of_forall ?_
    intro a b hnot
    exact absurd ⟨rfl, rfl⟩ hnot
  · intro w hw _
    obtain ⟨e, _, rfl⟩ := List.mem_map.mp hw
    rfl

/-- Appending a watcher wired to a limiter and a client allocated at `n` and
`n + 1` keeps the wiring invariant. -/
theorem wiringInv_append (c : Client) (ws : List ContractWatcher) (w : ContractWatcher)
    (n : Nat) (h : WiringInv c ws n) (hl : w.limiter.id = n) (hc : w.client.id = n + 1)
    (hk : w.isAnkr = false) : WiringInv c (ws ++ [w]) (n + 2) := by
  obtain ⟨hlt, hpair, hankr⟩ := h
  refine ⟨?_, ?_, ?_⟩
  · intro x hx
    rcases List.mem_append.mp hx with hx | hx
    · have := hlt x hx
      omega
    · have hxw : x = w := by simpa using hx
      subst hxw
      omega
  · unfold SharedOnlyByAnkr
    rw [List.pairwise_append]
    refine ⟨hpair, List.pairwise_singleton _ _, ?_⟩
    intro a ha b hb _
    have hbw : b = w := by simpa using hb
    subst hbw
    have := hlt a ha
    constructor
    · omega
    · omega
  · intro x hx hxa
    rcases List.mem_append.mp hx with hx | hx
    · exact hankr x hx hxa
    · have hxw : x = w := by simpa using hx
      subst hxw
      rw [hk] at hxa
      exact absurd hxa (by decide)

/-- One `if p != nil` block of newWatchers keeps the wiring invariant, when
the builder it calls either logs fatally or returns a watcher that is not
Ankr-backed and is wired to a limiter and client it just allocated. -/
theorem wiring_step {β γ : Type} (c : Client) (Q : Result γ → Prop)
    (result : List ContractWatcher) (p : Option β) (create : β → Proc ContractWatcher)
    (f : List ContractWatcher → Proc γ) (n : Nat)
    (hJ : WiringInv c result n)
    (hfatal : ∀ msg, Q (Result.fatal msg))
    (hpanic : ∀ msg, Q (Result.panic msg))
    (hcreate : ∀ v m w m1, create v m = Result.returned w m1 →
      m1 = m + 2 ∧ w.limiter.id = m ∧ w.client.id = m + 1 ∧ w.isAnkr = false)
    (hf : ∀ r m, WiringInv c r m → Q (f r m)) :
    Q ((appendIfSet result p create >>= f) n) := by
  refine appendIfSet_bind (WiringInv c) Q result p create f n (fun _ => hJ) ?_ hf
  intro v _
  refine ⟨fun msg _ => hfatal msg, fun msg _ => hpanic msg, ?_⟩
  intro w m hw
  obtain ⟨hm, hl, hc, hk⟩ := hcreate v n w m hw
  subst hm
  exact wiringInv_append c result w n hJ hl hc hk

/-- CreateSolanaWatcher, when it returns, returns a watcher wired to a limiter
and a client it just allocated. -/
theorem solana_wiring (parse : String → Except String PublicKey) (rateLimit : Int)
    (chainURL : String) (logger : Logger) (repo : Repository) (metrics : Metrics)
    (v : WatcherBlockchain) (m : Nat) (w : ContractWatcher) (m1 : Nat)
    (h : Builder.CreateSolanaWatcher parse rateLimit chainURL v logger repo metrics m =
      Result.returned w m1) :
    m1 = m + 2 ∧ w.limiter.id = m ∧ w.client.id = m + 1 ∧ w.isAnkr = false := by
  obtain ⟨pk, _, _, hm, hw⟩ := Builder.CreateSolanaWatcher_returned _ _ _ _ _ _ _ _ _ _ h
  subst hw
  exact ⟨hm, rfl, rfl, rfl⟩

/-- An EVM-standard constructor returns a watcher wired to a limiter and a
client it just allocated. -/
theorem evmStandard_wiring (rateLimit : Int) (chainURL : String) (logger : Logger)
    (repo : Repository) (metrics : Metrics) (v : WatcherBlockchainAddresses) (m : Nat)
    (w : ContractWatcher) (m1 : Nat)
    (h : Builder.CreateEvmStandardWatcher rateLimit chainURL v logger repo metrics m =
      Result.returned w m1) :
    m1 = m + 2 ∧ w.limiter.id = m ∧ w.client.id = m + 1 ∧ w.isAnkr = false := by
  obtain ⟨_, hm, hw⟩ := Builder.CreateEvmStandardWatcher_returned _ _ _ _ _ _ _ _ _ h
  subst hw
  exact ⟨hm, rfl, rfl, rfl⟩

/-- Whatever holds of every fatal outcome and of every returned list in which
only Ankr-backed watchers share a limiter or a client, and all of them share
one, holds of the outcome of the body of newWatchers. -/
theorem buildWatchers_wiring_cases (k : Consts) (config : ServiceConfiguration)
    (watchers : watchersConfig) (repo : Repository) (metrics : Metrics) (logger : Logger)
    (n : Nat) (Q : Result (List ContractWatcher) → Prop)
    (hfatal : ∀ msg, Q (Result.fatal msg))
    (hpanic : ∀ msg, Q (Result.panic msg))
    (hret : ∀ ws m, SharedOnlyByAnkr ws → AnkrShared ws → Q (Result.returned ws m)) :
    Q (buildWatchers k config watchers repo metrics logger n) := by
  by_cases hankr : watchers.rateLimit.ankr = 0
  · rw [buildWatchers_zero k config watchers repo metrics logger n hankr]
    exact hpanic _
  · rw [buildWatchers_eq k config watchers repo metrics logger n hankr]
    refine wiring_step
      { id := n + 1, sdk := SDK.Ankr, url := config.AnkrUrl,
        limiter := { id := n, rate := watchers.rateLimit.ankr, per := Second },
        metrics := metrics, opts := [] } Q _ _ _ _ _ ?_ hfatal hpanic ?_ ?_
    · exact wiringInv_evms _ repo metrics logger watchers.evms (n + 2)
        (by show n + 1 < n + 2; omega) (by show n < n + 2; omega)
    · intro v m w m1 hw
      exact solana_wiring _ _ _ _ _ _ v m w m1 hw
    intro r m hJ
    refine wiring_step _ Q _ _ _ _ _ hJ hfatal hpanic ?_ ?_
    · intro v m w m1 hw
      obtain ⟨_, hm, hw⟩ := Builder.CreateTerraWatcher_returned _ _ _ _ _ _ _ _ _ hw
      subst hw
      exact ⟨hm, rfl, rfl, rfl⟩
    intro r m hJ
    refine wiring_step _ Q _ _ _ _ _ hJ hfatal hpanic ?_ ?_
    · intro v m w m1 hw
      obtain ⟨_, hm, hw⟩ := Builder.CreateAptosWatcher_returned _ _ _ _ _ _ _ _ _ hw
      subst hw
      exact ⟨hm, rfl, rfl, rfl⟩
    intro r m hJ
    refine wiring_step _ Q _ _ _ _ _ hJ hfatal hpanic ?_ ?_
    · intro v m w m1 hw
      rw [Builder.CreateOasisWatcher_eq] at hw
      exact evmStandard_wiring _ _ _ _ _ v m w m1 hw
    intro r m hJ
    refine wiring_step _ Q _ _ _ _ _ hJ hfatal hpanic ?_ ?_
    · intro v m w m1 hw
      rw [Builder.CreateMoonbeamWatcher_eq] at hw
      exact evmStandard_wiring _ _ _ _ _ v m w m1 hw
    intro r m hJ
    refine wiring_step _ Q _ _ _ _ _ hJ hfatal hpanic ?_ ?_
    · intro v m w m1 hw
      rw [Builder.CreateCeloWatcher_eq] at hw
      exact evmStandard_wiring _ _ _ _ _ v m w m1 hw
    intro r m hJ
    refine wiring_step _ Q _ _ _ _ _ hJ hfatal hpanic ?_ ?_
    · intro v m w m1 hw
      rw [Builder.CreateOptimismWatcher_eq] at hw
      exact evmStandard_wiring _ _ _ _ _ v m w m1 hw
    intro r m hJ
    refine wiring_step _ Q _ _ _ _ _ hJ hfatal hpanic ?_ ?_
    · intro v m w m1 hw
      rw [Builder.CreateOptimismWatcher_eq] at hw
      exact evmStandard_wiring _ _ _ _ _ v m w m1 hw
    intro r m hJ
    obtain ⟨_, hpair, hankr⟩ := hJ
    refine hret r m hpair ?_
    intro a ha b hb haa hba
    have h1 := hankr a ha haa
    have h2 := hankr b hb hba
    unfold ContractWatcher.limiter
    rw [h1, h2]
    exact ⟨rfl, rfl⟩

/-- The wiring of the watchers the body of newWatchers returns: only
Ankr-backed watchers share a limiter or a client, and they all share one. -/
theorem buildWatchers_wiring (k : Consts) (config : ServiceConfiguration)
    (watchers : watchersConfig) (repo : Repository) (metrics : Metrics) (logger : Logger)
    (n : Nat) (ws : List ContractWatcher) (n1 : Nat)
    (h : buildWatchers k config watchers repo metrics logger n = Result.returned ws n1) :
    SharedOnlyByAnkr ws ∧ AnkrShared ws := by
  refine buildWatchers_wiring_cases k config watchers repo metrics logger n
    (fun r => ∀ ws n1, r = Result.returned ws n1 → SharedOnlyByAnkr ws ∧ AnkrShared ws)
    ?_ ?_ ?_ ws n1 h
  · intro msg ws n1 hh
    cases hh
  · intro msg ws n1 hh
    cases hh
  · intro ws1 m h1 h2 ws2 n2 hh
    injection hh with hws _
    subst hws
    exact ⟨h1, h2⟩

end Service
namespace Service

open Watcher

/-- One `if p != nil` block of newWatchers extends the list built so far by
the watcher of the chain `p` configures, if any; `rest` are the chains still
to be visited and `total` all configured chains. -/
theorem shape_step {β γ : Type} (name : β → String) (pre : List ContractWatcher)
    (total : List String) (rest : List (Option String)) (Q : Result γ → Prop)
    (result : List ContractWatcher) (p : Option β) (create : β → Proc ContractWatcher)
    (f : List ContractWatcher → Proc γ) (n : Nat)
    (hJ : (∃ tail, result = pre ++ tail) ∧
      result.map ContractWatcher.blockchain ++ (p.map name :: rest).reduceOption = total)
    (hfatal : ∀ msg, Q (Result.fatal msg))
    (hpanic : ∀ msg, Q (Result.panic msg))
    (hcreate : ∀ v m w m1, p = some v → create v m = Result.returned w m1 →
      w.blockchain = name v)
    (hf : ∀ r m, ((∃ tail, r = pre ++ tail) ∧
      r.map ContractWatcher.blockchain ++ rest.reduceOption = total) → Q (f r m)) :
    Q ((appendIfSet result p create >>= f) n) := by
  obtain ⟨⟨tail, htail⟩, hnames⟩ := hJ
  refine appendIfSet_bind
    (fun r _ => (∃ tail, r = pre ++ tail) ∧
      r.map ContractWatcher.blockchain ++ rest.reduceOption = total)
    Q result p create f n ?_ ?_ hf
  · intro hp
    subst hp
    refine ⟨⟨tail, htail⟩, ?_⟩
    simpa [List.reduceOption_cons_of_none] using hnames
  · intro v hp
    subst hp
    refine ⟨fun msg _ => hfatal msg, fun msg _ => hpanic msg, ?_⟩
    intro w m hw
    have hname := hcreate v n w m rfl hw
    refine ⟨⟨tail ++ [w], by rw [htail, List.append_assoc]⟩, ?_⟩
    rw [← hnames]
    simp [List.reduceOption_cons_of_some, hname]

/-- Whatever holds of every fatal outcome, of every panic and of every
returned list that starts with the watchers of the EVM loop and holds one
watcher per configured chain, holds of the outcome of the body of
newWatchers. -/
theorem buildWatchers_shape_cases (k : Consts) (config : ServiceConfiguration)
    (watchers : watchersConfig) (repo : Repository) (metrics : Metrics) (logger : Logger)
    (n : Nat) (Q : Result (List ContractWatcher) → Prop)
    (hfatal : ∀ msg, Q (Result.fatal msg))
    (hpanic : ∀ msg, Q (Result.panic msg))
    (hret : ∀ ws m,
      (∃ tail, ws = watchers.evms.map (evmLoopWatcher
        { id := n + 1, sdk := SDK.Ankr, url := config.AnkrUrl,
          limiter := { id := n, rate := watchers.rateLimit.ankr, per := Second },
          metrics := metrics, opts := [] } repo metrics logger) ++ tail) →
      ws.map ContractWatcher.blockchain = watchers.chains → Q (Result.returned ws m)) :
    Q (buildWatchers k config watchers repo metrics logger n) := by
  by_cases hankr : watchers.rateLimit.ankr = 0
  · rw [buildWatchers_zero k config watchers repo metrics logger n hankr]
    exact hpanic _
  · rw [buildWatchers_eq k config watchers repo metrics logger n hankr]
    refine shape_step (fun c : WatcherBlockchain => c.Name)
      (watchers.evms.map (evmLoopWatcher
        { id := n + 1, sdk := SDK.Ankr, url := config.AnkrUrl,
          limiter := { id := n, rate := watchers.rateLimit.ankr, per := Second },
          metrics := metrics, opts := [] } repo metrics logger)) watchers.chains
      [ watchers.terra.map (fun c => c.Name),
        watchers.aptos.map (fun c => c.Name), watchers.oasis.map (fun c => c.Name),
        watchers.moonbeam.map (fun c => c.Name), watchers.celo.map (fun c => c.Name),
        watchers.optimism.map (fun c => c.Name), watchers.arbitrum.map (fun c => c.Name) ]
      Q _ _ _ _ _ ?_ hfatal hpanic ?_ ?_
    · refine ⟨⟨[], by simp⟩, ?_⟩
      unfold watchersConfig.chains
      congr 1
      rw [List.map_map]
      rfl
    · intro v m w m1 _ hw
      obtain ⟨pk, _, _, _, hw⟩ := Builder.CreateSolanaWatcher_returned _ _ _ _ _ _ _ _ _ _ hw
      subst hw
      rfl
    intro r m hJ
    refine shape_step (fun c : WatcherBlockchain => c.Name) _ watchers.chains
      [ watchers.aptos.map (fun c => c.Name), watchers.oasis.map (fun c => c.Name),
        watchers.moonbeam.map (fun c => c.Name), watchers.celo.map (fun c => c.Name),
        watchers.optimism.map (fun c => c.Name), watchers.arbitrum.map (fun c => c.Name) ]
      Q _ _ _ _ _ hJ hfatal hpanic ?_ ?_
    · intro v m w m1 _ hw
      obtain ⟨_, _, hw⟩ := Builder.CreateTerraWatcher_returned _ _ _ _ _ _ _ _ _ hw
      subst hw
      rfl
    intro r m hJ
    refine shape_step (fun c : WatcherBlockchain => c.Name) _ watchers.chains
      [ watchers.oasis.map (fun c => c.Name),
        watchers.moonbeam.map (fun c => c.Name), watchers.celo.map (fun c => c.Name),
        watchers.optimism.map (fun c => c.Name), watchers.arbitrum.map (fun c => c.Name) ]
      Q _ _ _ _ _ hJ hfatal hpanic ?_ ?_
    · intro v m w m1 _ hw
      obtain ⟨_, _, hw⟩ := Builder.CreateAptosWatcher_returned _ _ _ _ _ _ _ _ _ hw
      subst hw
      rfl
    intro r m hJ
    refine shape_step (fun c : WatcherBlockchainAddresses => c.Name) _ watchers.chains
      [ watchers.moonbeam.map (fun c => c.Name), watchers.celo.map (fun c => c.Name),
        watchers.optimism.map (fun c => c.Name), watchers.arbitrum.map (fun c => c.Name) ]
      Q _ _ _ _ _ hJ hfatal hpanic ?_ ?_
    · intro v m w m1 _ hw
      rw [Builder.CreateOasisWatcher_eq] at hw
      obtain ⟨_, _, hw⟩ := Builder.CreateEvmStandardWatcher_returned _ _ _ _ _ _ _ _ _ hw
      subst hw
      rfl
    intro r m hJ
    refine shape_step (fun c : WatcherBlockchainAddresses => c.Name) _ watchers.chains
      [ watchers.celo.map (fun c => c.Name),
        watchers.optimism.map (fun c => c.Name), watchers.arbitrum.map (fun c => c.Name) ]
      Q _ _ _ _ _ hJ hfatal hpanic ?_ ?_
    · intro v m w m1 _ hw
      rw [Builder.CreateMoonbeamWatcher_eq] at hw
      obtain ⟨_, _, hw⟩ := Builder.CreateEvmStandardWatcher_returned _ _ _ _ _ _ _ _ _ hw
      subst hw
      rfl
    intro r m hJ
    refine shape_step (fun c : WatcherBlockchainAddresses => c.Name) _ watchers.chains
      [ watchers.optimism.map (fun c => c.Name), watchers.arbitrum.map (fun c => c.Name) ]
      Q _ _ _ _ _ hJ hfatal hpanic ?_ ?_
    · intro v m w m1 _ hw
      rw [Builder.CreateCeloWatcher_eq] at hw
      obtain ⟨_, _, hw⟩ := Builder.CreateEvmStandardWatcher_returned _ _ _ _ _ _ _ _ _ hw
      subst hw
      rfl
    intro r m hJ
    refine shape_step (fun c : WatcherBlockchainAddresses => c.Name) _ watchers.chains
      [ watchers.arbitrum.map (fun c => c.Name) ]
      Q _ _ _ _ _ hJ hfatal hpanic ?_ ?_
    · intro v m w m1 _ hw
      rw [Builder.CreateOptimismWatcher_eq] at hw
      obtain ⟨_, _, hw⟩ := Builder.CreateEvmStandardWatcher_returned _ _ _ _ _ _ _ _ _ hw
      subst hw
      rfl
    intro r m hJ
    refine shape_step (fun c : WatcherBlockchainAddresses => c.Name) _ watchers.chains
      [] Q _ _ _ _ _ hJ hfatal hpanic ?_ ?_
    · intro v m w m1 _ hw
      rw [Builder.CreateOptimismWatcher_eq] at hw
      obtain ⟨_, _, hw⟩ := Builder.CreateEvmStandardWatcher_returned _ _ _ _ _ _ _ _ _ hw
      subst hw
      rfl
    intro r m hJ
    obtain ⟨htail, hnames⟩ := hJ
    refine hret r m htail ?_
    simpa using hnames

end Service
namespace Builder

open Watcher

end Builder
namespace Builder

open Watcher

/-- Counterexample to C8 as stated: the parameters CreateTerraWatcher builds do
not carry the polling window (SizeBlocks) of the configuration. -/
theorem terra_params_without_window :
    ¬ Carries (CreateTerraWatcher 6 "https://terra.example"
        (Sample.consts Sample.solanaAddress).TERRA_MAINNET
        Sample.logger Sample.repo Sample.metrics 0)
      (Sample.consts Sample.solanaAddress).TERRA_MAINNET
      (Address.text (Sample.consts Sample.solanaAddress).TERRA_MAINNET.Address)
      (some (Sample.consts Sample.solanaAddress).TERRA_MAINNET.SizeBlocks) := by
  rintro ⟨w, n, h, _, _, hsize, _, _⟩
  rw [CreateTerraWatcher_eq _ _ _ _ _ _ _ (by decide)] at h
  injection h with hw _
  subst hw
  simp [ContractWatcher.sizeBlocks] at hsize

/-- C8 (amended): every watcher CreateSolanaWatcher returns carries the name,
SizeBlocks, WaitSeconds and InitialBlock of wb and, as its contract address,
the public key parsed from the address of wb; every watcher CreateAptosWatcher
returns carries the name, contract address, SizeBlocks, WaitSeconds and
InitialBlock of wb; every watcher CreateTerraWatcher returns carries the name,
contract address, WaitSeconds, InitialBlock and ChainID of wb, and no polling
window.  For a budget other than 0 (and, for Solana, an address that parses)
each of the three returns such a watcher. -/
theorem single_address_params (parse : String → Except String PublicKey) (rateLimit : Int)
    (chainURL : String) (wb : WatcherBlockchain) (logger : Logger) (repo : Repository)
    (metrics : Metrics) (n : Nat) :
    (Always (CreateSolanaWatcher parse rateLimit chainURL wb logger repo metrics n)
        (fun w => ∃ pk, parse wb.Address = Except.ok pk ∧
          CarriesConfig wb (Address.key pk) (some wb.SizeBlocks) w) ∧
      Always (CreateAptosWatcher rateLimit chainURL wb logger repo metrics n)
        (CarriesConfig wb (Address.text wb.Address) (some wb.SizeBlocks)) ∧
      Always (CreateTerraWatcher rateLimit chainURL wb logger repo metrics n)
        (CarriesConfig wb (Address.text wb.Address) none) ∧
      Always (CreateTerraWatcher rateLimit chainURL wb logger repo metrics n)
        (fun w => ∃ c p, w = ContractWatcher.NewTerraWatcher c p repo metrics logger ∧
          p.ChainID = wb.ChainID)) ∧
    (rateLimit ≠ 0 →
      (∀ pk, parse wb.Address = Except.ok pk →
        Carries (CreateSolanaWatcher parse rateLimit chainURL wb logger repo metrics n) wb
          (Address.key pk) (some wb.SizeBlocks)) ∧
      Carries (CreateAptosWatcher rateLimit chainURL wb logger repo metrics n) wb
        (Address.text wb.Address) (some wb.SizeBlocks) ∧
      Carries (CreateTerraWatcher rateLimit chainURL wb logger repo metrics n) wb
        (Address.text wb.Address) none) := by
  refine ⟨⟨?_, ?_, ?_, ?_⟩, ?_⟩
  · intro w n1 h
    obtain ⟨pk, hpk, _, _, hw⟩ := CreateSolanaWatcher_returned _ _ _ _ _ _ _ _ _ _ h
    subst hw
    exact ⟨pk, hpk, rfl, rfl, rfl, rfl, rfl⟩
  · intro w n1 h
    obtain ⟨_, _, hw⟩ := CreateAptosWatcher_returned _ _ _ _ _ _ _ _ _ h
    subst hw
    exact ⟨rfl, rfl, rfl, rfl, rfl⟩
  · intro w n1 h
    obtain ⟨_, _, hw⟩ := CreateTerraWatcher_returned _ _ _ _ _ _ _ _ _ h
    subst hw
    exact ⟨rfl, rfl, rfl, rfl, rfl⟩
  · intro w n1 h
    obtain ⟨_, _, hw⟩ := CreateTerraWatcher_returned _ _ _ _ _ _ _ _ _ h
    subst hw
    exact ⟨_, _, rfl, rfl⟩
  · intro hN
    refine ⟨?_, ?_, ?_⟩
    · intro pk hpk
      exact ⟨_, _, CreateSolanaWatcher_ok _ _ _ _ _ _ _ _ pk hpk hN, rfl, rfl, rfl, rfl, rfl⟩
    · exact ⟨_, _, CreateAptosWatcher_eq _ _ _ _ _ _ _ hN, rfl, rfl, rfl, rfl, rfl⟩
    · exact ⟨_, _, CreateTerraWatcher_eq _ _ _ _ _ _ _ hN, rfl, rfl, rfl, rfl, rfl⟩

/-- Witness of C8 (amended): the Solana builder at the token bridge address. -/
theorem single_address_params_witness :
    ∃ pk, Sample.PublicKeyFromBase58 Sample.solanaAddress = Except.ok pk ∧
      Carries (CreateSolanaWatcher Sample.PublicKeyFromBase58 5 "https://solana.example"
        (Sample.oneChain 1 "solana" Sample.solanaAddress)
        Sample.logger Sample.repo Sample.metrics 0)
        (Sample.oneChain 1 "solana" Sample.solanaAddress)
        (Address.key pk) (some 50) :=
  ⟨_, rfl, ((single_address_params Sample.PublicKeyFromBase58 5 "https://solana.example"
    (Sample.oneChain 1 "solana" Sample.solanaAddress)
    Sample.logger Sample.repo Sample.metrics 0).2 (by decide)).1 _ rfl⟩

/-- C9: for all arguments, CreateOasisWatcher, CreateMoonbeamWatcher,
CreateCeloWatcher, CreateOptimismWatcher and CreateArbitrumWatcher are the same
construction, the single EVM-standard factory (one limiter of rateLimit per
second, one NewEvmSDK client, the EVMParams of wb, NewEvmStandarWatcher); so
the Arbitrum block of newWatchers, which calls CreateOptimismWatcher, builds
what it would build by calling CreateArbitrumWatcher. -/
theorem evm_standard_constructors_collapse (rateLimit : Int) (chainURL : String)
    (wb : WatcherBlockchainAddresses) (logger : Logger) (repo : Repository)
    (metrics : Metrics) :
    CreateOasisWatcher rateLimit chainURL wb logger repo metrics =
      CreateEvmStandardWatcher rateLimit chainURL wb logger repo metrics ∧
    CreateMoonbeamWatcher rateLimit chainURL wb logger repo metrics =
      CreateEvmStandardWatcher rateLimit chainURL wb logger repo metrics ∧
    CreateCeloWatcher rateLimit chainURL wb logger repo metrics =
      CreateEvmStandardWatcher rateLimit chainURL wb logger repo metrics ∧
    CreateOptimismWatcher rateLimit chainURL wb logger repo metrics =
      CreateEvmStandardWatcher rateLimit chainURL wb logger repo metrics ∧
    CreateArbitrumWatcher rateLimit chainURL wb logger repo metrics =
      CreateEvmStandardWatcher rateLimit chainURL wb logger repo metrics ∧
    CreateOptimismWatcher rateLimit chainURL wb logger repo metrics =
      CreateArbitrumWatcher rateLimit chainURL wb logger repo metrics ∧
    (∀ (result : List ContractWatcher) (p : Option WatcherBlockchainAddresses),
      Service.appendIfSet result p (fun v =>
          CreateOptimismWatcher rateLimit chainURL v logger repo metrics) =
        Service.appendIfSet result p (fun v =>
          CreateArbitrumWatcher rateLimit chainURL v logger repo metrics)) := by
  have hoa := funext (CreateOasisWatcher_eq rateLimit chainURL wb logger repo metrics)
  have hmo := funext (CreateMoonbeamWatcher_eq rateLimit chainURL wb logger repo metrics)
  have hce := funext (CreateCeloWatcher_eq rateLimit chainURL wb logger repo metrics)
  have hop := funext (CreateOptimismWatcher_eq rateLimit chainURL wb logger repo metrics)
  have har := funext (CreateArbitrumWatcher_eq rateLimit chainURL wb logger repo metrics)
  refine ⟨hoa, hmo, hce, hop, har, hop.trans har.symm, ?_⟩
  intro result p
  have hfun : (fun v => CreateOptimismWatcher rateLimit chainURL v logger repo metrics) =
      (fun v => CreateArbitrumWatcher rateLimit chainURL v logger repo metrics) :=
    funext fun v =>
      (funext (CreateOptimismWatcher_eq rateLimit chainURL v logger repo metrics)).trans
        (funext (CreateArbitrumWatcher_eq rateLimit chainURL v logger repo metrics)).symm
  rw [hfun]

end Builder
namespace Service

open Watcher

/-- Counterexample to C1 as stated: on mainnet with a malformed Solana address
newWatchers ends in the fatal log, which ends the process; it returns no
watchers, those of the other chains included. -/
theorem newWatchers_malformed_solana_fatal :
    newWatchers (Sample.consts Sample.malformedAddress) (Sample.config "mainnet")
        Sample.repo Sample.metrics Sample.logger 0 =
      Result.fatal "failed to parse solana contract address" ∧
    ¬ ∃ ws n, newWatchers (Sample.consts Sample.malformedAddress) (Sample.config "mainnet")
        Sample.repo Sample.metrics Sample.logger 0 = Result.returned ws n := by
  have h : newWatchers (Sample.consts Sample.malformedAddress) (Sample.config "mainnet")
        Sample.repo Sample.metrics Sample.logger 0 =
      Result.fatal "failed to parse solana contract address" := by rfl
  refine ⟨h, ?_⟩
  rintro ⟨ws, n, hret⟩
  rw [h] at hret
  cases hret

/-- The selection that configures a Solana watcher holds the Ankr budget of
the service configuration: only mainnet and testnet select a Solana watcher. -/
theorem selectWatchers_solana_ankr (k : Consts) (config : ServiceConfiguration)
    (wb : WatcherBlockchain) (hsol : (selectWatchers k config).solana = some wb) :
    (selectWatchers k config).rateLimit.ankr = config.AnkrRequestsPerSecond := by
  unfold selectWatchers at hsol ⊢
  by_cases hmain : config.P2pNetwork = k.P2pMainNet
  · rw [if_pos hmain]
    rfl
  · rw [if_neg hmain] at hsol ⊢
    by_cases htest : config.P2pNetwork = k.P2pTestNet
    · rw [if_pos htest]
      rfl
    · rw [if_neg htest] at hsol
      cases hsol

/-- C1 (amended): for every configuration in which the selected Solana
contract address is not a valid base58 public key, newWatchers returns no
watchers, those of the other chains included, and reports no construction
error: it ends the process with the fatal log of CreateSolanaWatcher (and for
an Ankr budget of 0 it has panicked in ratelimit.New even before that). -/
theorem newWatchers_solana_address (k : Consts) (config : ServiceConfiguration)
    (repo : Repository) (metrics : Metrics) (logger : Logger) (n : Nat)
    (wb : WatcherBlockchain) (e : String)
    (hsol : (selectWatchers k config).solana = some wb)
    (hparse : k.PublicKeyFromBase58 wb.Address = Except.error e) :
    (¬ ∃ ws n1, newWatchers k config repo metrics logger n = Result.returned ws n1) ∧
    (config.AnkrRequestsPerSecond ≠ 0 →
      newWatchers k config repo metrics logger n =
        Result.fatal "failed to parse solana contract address") ∧
    (config.AnkrRequestsPerSecond = 0 →
      newWatchers k config repo metrics logger n = Result.panic divideByZero) := by
  have hankr := selectWatchers_solana_ankr k config wb hsol
  have hfatal : config.AnkrRequestsPerSecond ≠ 0 →
      newWatchers k config repo metrics logger n =
        Result.fatal "failed to parse solana contract address" := by
    intro h0
    unfold newWatchers
    rw [buildWatchers_eq _ _ _ _ _ _ _ (by rw [hankr]; exact h0), hsol]
    show Proc.bind (Proc.bind (Builder.CreateSolanaWatcher _ _ _ wb _ _ _) _) _ (n + 2) = _
    unfold Proc.bind
    rw [Builder.CreateSolanaWatcher_error _ _ _ _ _ _ _ _ e hparse]
  have hpanic : config.AnkrRequestsPerSecond = 0 →
      newWatchers k config repo metrics logger n = Result.panic divideByZero := by
    intro h0
    unfold newWatchers
    exact buildWatchers_zero _ _ _ _ _ _ _ (by rw [hankr]; exact h0)
  refine ⟨?_, hfatal, hpanic⟩
  rintro ⟨ws, n1, hret⟩
  by_cases h0 : config.AnkrRequestsPerSecond = 0
  · rw [hpanic h0] at hret
    cases hret
  · rw [hfatal h0] at hret
    cases hret

/-- Witness of C1 (amended): the malformed address on mainnet. -/
theorem newWatchers_solana_address_witness :
    newWatchers (Sample.consts Sample.malformedAddress) (Sample.config "mainnet")
        Sample.repo Sample.metrics Sample.logger 0 =
      Result.fatal "failed to parse solana contract address" :=
  (newWatchers_solana_address (Sample.consts Sample.malformedAddress)
    (Sample.config "mainnet") Sample.repo Sample.metrics Sample.logger 0
    (Sample.consts Sample.malformedAddress).SOLANA_MAINNET
    "decode: invalid base58 digit" rfl rfl).2.1 (by decide)

/-- Counterexample to C2 as stated: on mainnet the Ethereum and Polygon
watchers, of different chains, are wired to the same limiter and the same
client. -/
theorem ankr_budget_shared_across_chains :
    ¬ ∀ ws n, newWatchers (Sample.consts Sample.solanaAddress) (Sample.config "mainnet")
        Sample.repo Sample.metrics Sample.logger 0 = Result.returned ws n →
      NeverSharedAcrossChains ws := by
  intro h
  have h1 := h Sample.mainnetWatchers 14 rfl
  unfold NeverSharedAcrossChains Unshared at h1
  revert h1
  decide

/-- C2 (amended): among the watchers newWatchers returns, two that are not
both Ankr-backed EVM watchers are wired to different limiter instances and
different clients; the Ankr-backed EVM watchers (Ethereum, Polygon, BSC,
Fantom, Avalanche) are all wired to the one limiter and the one client made
for Ankr. -/
theorem newWatchers_sharing (k : Consts) (config : ServiceConfiguration)
    (repo : Repository) (metrics : Metrics) (logger : Logger) (n : Nat)
    (ws : List ContractWatcher) (n1 : Nat)
    (h : newWatchers k config repo metrics logger n = Result.returned ws n1) :
    SharedOnlyByAnkr ws ∧ AnkrShared ws :=
  buildWatchers_wiring k config (selectWatchers k config) repo metrics logger n ws n1 h

/-- Witness of C2 (amended): the mainnet sample. -/
theorem newWatchers_sharing_witness :
    SharedOnlyByAnkr Sample.mainnetWatchers ∧ AnkrShared Sample.mainnetWatchers :=
  newWatchers_sharing (Sample.consts Sample.solanaAddress) (Sample.config "mainnet")
    Sample.repo Sample.metrics Sample.logger 0 Sample.mainnetWatchers 14 rfl

end Service
/-! ## Theorems: order and keys of the de-duplication -/

namespace Governor

/-- The loop of GetEnqueuedVaas appends `keepFirst` of the entries it visits. -/
theorem dedupFold_eq_keepFirst (chainString : ChainID → String)
    (entries : List EnqueuedVaaItem) :
    ∀ st : List EnqueuedVaaItem × List String,
      (entries.foldl (dedupStep chainString) st).1 =
        st.1 ++ keepFirst chainString st.2 entries := by
  induction entries with
  | nil => intro st; simp [keepFirst]
  | cons e rest ih =>
    intro st
    rw [List.foldl_cons, ih]
    by_cases hk : enqueuedKey chainString e ∈ st.2
    · simp [dedupStep, keepFirst, hk]
    · simp [dedupStep, keepFirst, hk]

/-- The result of the loop, started on the empty map. -/
theorem dedupEnqueued_eq_keepFirst (chainString : ChainID → String)
    (entries : List EnqueuedVaaItem) :
    dedupEnqueued chainString entries = keepFirst chainString [] entries := by
  unfold dedupEnqueued
  rw [dedupFold_eq_keepFirst]
  simp

/-- The kept entries are a subsequence of the visited ones. -/
theorem keepFirst_sublist (chainString : ChainID → String)
    (entries : List EnqueuedVaaItem) :
    ∀ seen : List String, (keepFirst chainString seen entries).Sublist entries := by
  induction entries with
  | nil => intro seen; simp [keepFirst]
  | cons e rest ih =>
    intro seen
    by_cases hk : enqueuedKey chainString e ∈ seen
    · simp only [keepFirst, hk, if_true]
      exact List.Sublist.cons e (ih seen)
    · simp only [keepFirst, hk, if_false]
      exact List.Sublist.cons₂ e (ih _)

/-- A kept entry has an unseen key and is the first visited entry with its key. -/
theorem keepFirst_first (chainString : ChainID → String)
    (entries : List EnqueuedVaaItem) :
    ∀ (seen : List String) (r : EnqueuedVaaItem), r ∈ keepFirst chainString seen entries →
      enqueuedKey chainString r ∉ seen ∧
      entries.find? (fun x => enqueuedKey chainString x == enqueuedKey chainString r) =
        some r := by
  induction entries with
  | nil => intro seen r hr; simp [keepFirst] at hr
  | cons e rest ih =>
    intro seen r hr
    by_cases hk : enqueuedKey chainString e ∈ seen
    · simp only [keepFirst, hk, if_true] at hr
      obtain ⟨hns, hfind⟩ := ih seen r hr
      refine ⟨hns, ?_⟩
      have hne : (enqueuedKey chainString e == enqueuedKey chainString r) = false := by
        rw [beq_eq_false_iff_ne]
        intro heq
        exact hns (heq ▸ hk)
      simp only [List.find?_cons, hne]
      exact hfind
    · simp only [keepFirst, hk, if_false] at hr
      rcases List.mem_cons.mp hr with hre | hr
      · subst hre
        refine ⟨hk, ?_⟩
        simp [List.find?_cons]
      · obtain ⟨hns, hfind⟩ := ih _ r hr
        have hne1 : enqueuedKey chainString r ≠ enqueuedKey chainString e := fun heq =>
          hns (by rw [heq]; exact List.mem_cons_self _ _)
        refine ⟨fun hin => hns (List.mem_cons_of_mem _ hin), ?_⟩
        have hne : (enqueuedKey chainString e == enqueuedKey chainString r) = false := by
          rw [beq_eq_false_iff_ne]
          exact fun heq => hne1 heq.symm
        simp only [List.find?_cons, hne]
        exact hfind

/-- Visiting the kept entries again keeps all of them. -/
theorem keepFirst_idem (chainString : ChainID → String)
    (entries : List EnqueuedVaaItem) :
    ∀ seen : List String,
      keepFirst chainString seen (keepFirst chainString seen entries) =
        keepFirst chainString seen entries := by
  induction entries with
  | nil => intro seen; simp [keepFirst]
  | cons e rest ih =>
    intro seen
    by_cases hk : enqueuedKey chainString e ∈ seen
    · simp only [keepFirst, hk, if_true]
      exact ih seen
    · simp only [keepFirst, hk, if_false]
      rw [ih]

end Governor

namespace Governor

/-- Splitting at the first separator is unique when the parts before it do
not contain the separator. -/
theorem split_at_first_unique (sep : Char) :
    ∀ (p1 p2 r1 r2 : List Char), sep ∉ p1 → sep ∉ p2 →
      p1 ++ sep :: r1 = p2 ++ sep :: r2 → p1 = p2 ∧ r1 = r2 := by
  intro p1
  induction p1 with
  | nil =>
    intro p2 r1 r2 _ h2 heq
    cases p2 with
    | nil => simpa using heq
    | cons c cs =>
      simp only [List.nil_append, List.cons_append, List.cons.injEq] at heq
      exact absurd (heq.1 ▸ List.mem_cons_self _ _) h2
  | cons a as ih =>
    intro p2 r1 r2 h1 h2 heq
    cases p2 with
    | nil =>
      simp only [List.nil_append, List.cons_append, List.cons.injEq] at heq
      exact absurd (heq.1 ▸ List.mem_cons_self _ _) h1
    | cons c cs =>
      simp only [List.cons_append, List.cons.injEq] at heq
      obtain ⟨hac, hrest⟩ := heq
      have h1t : sep ∉ as := fun hin => h1 (List.mem_cons_of_mem _ hin)
      have h2t : sep ∉ cs := fun hin => h2 (List.mem_cons_of_mem _ hin)
      obtain ⟨hp, hr⟩ := ih cs r1 r2 h1t h2t hrest
      exact ⟨by rw [hac, hp], hr⟩

/-- Splitting at the last separator is unique when the parts after it do not
contain the separator. -/
theorem split_at_last_unique (sep : Char) (p1 p2 r1 r2 : List Char)
    (h1 : sep ∉ r1) (h2 : sep ∉ r2) (heq : p1 ++ sep :: r1 = p2 ++ sep :: r2) :
    p1 = p2 ∧ r1 = r2 := by
  have hrev : r1.reverse ++ sep :: p1.reverse = r2.reverse ++ sep :: p2.reverse := by
    have := congrArg List.reverse heq
    simpa [List.reverse_append, List.reverse_cons, List.append_assoc] using this
  obtain ⟨hr, hp⟩ := split_at_first_unique sep r1.reverse r2.reverse p1.reverse p2.reverse
    (by simpa using h1) (by simpa using h2) hrev
  exact ⟨List.reverse_injective hp, List.reverse_injective hr⟩

/-- Two entries with the same key are the same VAA, when their addresses and
sequences hold no separator and their chains print differently unless equal. -/
theorem sameTriple_of_key_eq (chainString : ChainID → String) (a b : EnqueuedVaaItem)
    (hchain : chainString a.EmitterChain = chainString b.EmitterChain →
      a.EmitterChain = b.EmitterChain)
    (ha : SlashFree a) (hb : SlashFree b)
    (hkey : enqueuedKey chainString a = enqueuedKey chainString b) : SameTriple a b := by
  have hdata := congrArg String.data hkey
  simp only [enqueuedKey, String.data_append] at hdata
  have h1 : ((chainString a.EmitterChain).data ++ '/' :: a.EmitterAddress.data) ++
        '/' :: a.Sequence.data =
      ((chainString b.EmitterChain).data ++ '/' :: b.EmitterAddress.data) ++
        '/' :: b.Sequence.data := by
    simpa [List.append_assoc] using hdata
  obtain ⟨h2, hseq⟩ := split_at_last_unique '/' _ _ _ _ ha.2 hb.2 h1
  obtain ⟨hc, haddr⟩ := split_at_last_unique '/' _ _ _ _ ha.1 hb.1 h2
  refine ⟨hchain (String.ext hc), String.ext haddr, String.ext hseq⟩

/-- Two predicates that agree on the entries of a list find the same entry. -/
theorem find?_congr_mem (p q : EnqueuedVaaItem → Bool) (l : List EnqueuedVaaItem)
    (h : ∀ x ∈ l, p x = q x) : l.find? p = l.find? q := by
  induction l with
  | nil => rfl
  | cons a rest ih =>
    have ha := h a (List.mem_cons_self _ _)
    have hrest := ih (fun x hx => h x (List.mem_cons_of_mem _ hx))
    simp only [List.find?_cons, ha, hrest]

/-- The decimal printing of chains gives no two chains the same text. -/
theorem decimal_injective : Function.Injective Sample.decimal := by
  have hchar : ∀ d1 < 10, ∀ d2 < 10, Nat.digitChar d1 = Nat.digitChar d2 → d1 = d2 := by
    decide
  have hmap : ∀ l1 l2 : List Nat, (∀ d ∈ l1, d < 10) → (∀ d ∈ l2, d < 10) →
      l1.map Nat.digitChar = l2.map Nat.digitChar → l1 = l2 := by
    intro l1
    induction l1 with
    | nil =>
      intro l2 _ _ h
      cases l2 with
      | nil => rfl
      | cons b bs => simp at h
    | cons a as ih =>
      intro l2 h1 h2 h
      cases l2 with
      | nil => simp at h
      | cons b bs =>
        simp only [List.map_cons, List.cons.injEq] at h
        have hab := hchar a (h1 a (List.mem_cons_self _ _)) b (h2 b (List.mem_cons_self _ _)) h.1
        have hrest := ih bs (fun d hd => h1 d (List.mem_cons_of_mem _ hd))
          (fun d hd => h2 d (List.mem_cons_of_mem _ hd)) h.2
        rw [hab, hrest]
  intro a b h
  unfold Sample.decimal at h
  have h1 := List.reverse_injective (congrArg String.data h)
  have h2 := hmap _ _ (fun d hd => Nat.digits_lt_base (by norm_num) hd)
    (fun d hd => Nat.digits_lt_base (by norm_num) hd) h1
  exact Nat.digits_inj_iff.mp h2

end Governor
/-! ## Theorems: budgets and endpoints of newWatchers -/

namespace Service

open Watcher

/-- One `if p != nil` block of newWatchers extends the projections of the
list built so far by the projection expected for the chain `p` configures, if
any; `rest` are the expectations still to come and `total` all of them. -/
theorem wired_step {α β γ : Type} (proj : ContractWatcher → α) (name : β → α)
    (total : List α) (rest : List (Option α)) (Q : Result γ → Prop)
    (result : List ContractWatcher) (p : Option β) (create : β → Proc ContractWatcher)
    (f : List ContractWatcher → Proc γ) (n : Nat)
    (hJ : result.map proj ++ (p.map name :: rest).reduceOption = total)
    (hfatal : ∀ msg, Q (Result.fatal msg))
    (hpanic : ∀ msg, Q (Result.panic msg))
    (hcreate : ∀ v m w m1, p = some v → create v m = Result.returned w m1 →
      proj w = name v)
    (hf : ∀ r m, r.map proj ++ rest.reduceOption = total → Q (f r m)) :
    Q ((appendIfSet result p create >>= f) n) := by
  refine appendIfSet_bind (fun r _ => r.map proj ++ rest.reduceOption = total)
    Q result p create f n ?_ ?_ hf
  · intro hp
    subst hp
    simpa [List.reduceOption_cons_of_none] using hJ
  · intro v hp
    subst hp
    refine ⟨fun msg _ => hfatal msg, fun msg _ => hpanic msg, ?_⟩
    intro w m hw
    have hproj := hcreate v n w m rfl hw
    rw [← hJ]
    simp [List.reduceOption_cons_of_some, hproj]

/-- Whatever holds of every fatal outcome, of every panic and of every
returned list wired as the specification asks, holds of the outcome of the body
of newWatchers when the selected budgets are the per-chain budgets of the
configuration. -/
theorem buildWatchers_wired_cases (k : Consts) (config : ServiceConfiguration)
    (watchers : watchersConfig) (repo : Repository) (metrics : Metrics) (logger : Logger)
    (n : Nat) (hrate : watchers.rateLimit = perChainBudget config)
    (Q : Result (List ContractWatcher) → Prop)
    (hfatal : ∀ msg, Q (Result.fatal msg))
    (hpanic : ∀ msg, Q (Result.panic msg))
    (hret : ∀ ws m, ws.map wiringOf = expectedWiring watchers config →
      Q (Result.returned ws m)) :
    Q (buildWatchers k config watchers repo metrics logger n) := by
  by_cases hankr : watchers.rateLimit.ankr = 0
  · rw [buildWatchers_zero k config watchers repo metrics logger n hankr]
    exact hpanic _
  · rw [buildWatchers_eq k config watchers repo metrics logger n hankr]
    refine wired_step wiringOf
      (fun c : WatcherBlockchain =>
        { chain := c.Name, rate := config.SolanaRequestsPerSecond, per := Second,
          url := config.SolanaUrl })
      (expectedWiring watchers config)
      [ watchers.terra.map (fun c =>
            { chain := c.Name, rate := config.TerraRequestsPerSecond, per := Second,
              url := config.TerraUrl }),
        watchers.aptos.map (fun c =>
            { chain := c.Name, rate := config.AptosRequestsPerSecond, per := Second,
              url := config.AptosUrl }),
        watchers.oasis.map (fun c =>
            { chain := c.Name, rate := config.OasisRequestsPerSecond, per := Second,
              url := config.OasisUrl }),
        watchers.moonbeam.map (fun c =>
            { chain := c.Name, rate := config.MoonbeamRequestsPerSecond, per := Second,
              url := config.MoonbeamUrl }),
        watchers.celo.map (fun c =>
            { chain := c.Name, rate := config.CeloRequestsPerSecond, per := Second,
              url := config.CeloUrl }),
        watchers.optimism.map (fun c =>
            { chain := c.Name, rate := config.OptimismRequestsPerSecond, per := Second,
              url := config.OptimismUrl }),
        watchers.arbitrum.map (fun c =>
            { chain := c.Name, rate := config.ArbitrumRequestsPerSecond, per := Second,
              url := config.ArbitrumUrl }) ]
      Q _ _ _ _ _ ?_ hfatal hpanic ?_ ?_
    · unfold expectedWiring
      congr 1
      rw [List.map_map]
      apply List.map_congr_left
      intro c _
      simp [wiringOf, evmLoopWatcher, ContractWatcher.blockchain, ContractWatcher.limiter,
        ContractWatcher.client, hrate, perChainBudget]
    · intro v m w m1 _ hw
      obtain ⟨pk, _, _, _, hw⟩ := Builder.CreateSolanaWatcher_returned _ _ _ _ _ _ _ _ _ _ hw
      subst hw
      simp [wiringOf, ContractWatcher.blockchain, ContractWatcher.limiter,
        ContractWatcher.client, hrate, perChainBudget]
    intro r m hJ
    refine wired_step wiringOf
      (fun c : WatcherBlockchain =>
        { chain := c.Name, rate := config.TerraRequestsPerSecond, per := Second,
          url := config.TerraUrl })
      (expectedWiring watchers config)
      [ watchers.aptos.map (fun c =>
            { chain := c.Name, rate := config.AptosRequestsPerSecond, per := Second,
              url := config.AptosUrl }),
        watchers.oasis.map (fun c =>
            { chain := c.Name, rate := config.OasisRequestsPerSecond, per := Second,
              url := config.OasisUrl }),
        watchers.moonbeam.map (fun c =>
            { chain := c.Name, rate := config.MoonbeamRequestsPerSecond, per := Second,
              url := config.MoonbeamUrl }),
        watchers.celo.map (fun c =>
            { chain := c.Name, rate := config.CeloRequestsPerSecond, per := Second,
              url := config.CeloUrl }),
        watchers.optimism.map (fun c =>
            { chain := c.Name, rate := config.OptimismRequestsPerSecond, per := Second,
              url := config.OptimismUrl }),
        watchers.arbitrum.map (fun c =>
            { chain := c.Name, rate := config.ArbitrumRequestsPerSecond, per := Second,
              url := config.ArbitrumUrl }) ]
      Q _ _ _ _ _ hJ hfatal hpanic ?_ ?_
    · intro v m w m1 _ hw
      obtain ⟨_, _, hw⟩ := Builder.CreateTerraWatcher_returned _ _ _ _ _ _ _ _ _ hw
      subst hw
      simp [wiringOf, ContractWatcher.blockchain, ContractWatcher.limiter,
        ContractWatcher.client, hrate, perChainBudget]
    intro r m hJ
    refine wired_step wiringOf
      (fun c : WatcherBlockchain =>
        { chain := c.Name, rate := config.AptosRequestsPerSecond, per := Second,
          url := config.AptosUrl })
      (expectedWiring watchers config)
      [ watchers.oasis.map (fun c =>
            { chain := c.Name, rate := config.OasisRequestsPerSecond, per := Second,
              url := config.OasisUrl }),
        watchers.moonbeam.map (fun c =>
            { chain := c.Name, rate := config.MoonbeamRequestsPerSecond, per := Second,
              url := config.MoonbeamUrl }),
        watchers.celo.map (fun c =>
            { chain := c.Name, rate := config.CeloRequestsPerSecond, per := Second,
              url := config.CeloUrl }),
        watchers.optimism.map (fun c =>
            { chain := c.Name, rate := config.OptimismRequestsPerSecond, per := Second,
              url := config.OptimismUrl }),
        watchers.arbitrum.map (fun c =>
            { chain := c.Name, rate := config.ArbitrumRequestsPerSecond, per := Second,
              url := config.ArbitrumUrl }) ]
      Q _ _ _ _ _ hJ hfatal hpanic ?_ ?_
    · intro v m w m1 _ hw
      obtain ⟨_, _, hw⟩ := Builder.CreateAptosWatcher_returned _ _ _ _ _ _ _ _ _ hw
      subst hw
      simp [wiringOf, ContractWatcher.blockchain, ContractWatcher.limiter,
        ContractWatcher.client, hrate, perChainBudget]
    intro r m hJ
    refine wired_step wiringOf
      (fun c : WatcherBlockchainAddresses =>
        { chain := c.Name, rate := config.OasisRequestsPerSecond, per := Second,
          url := config.OasisUrl })
      (expectedWiring watchers config)
      [ watchers.moonbeam.map (fun c =>
            { chain := c.Name, rate := config.MoonbeamRequestsPerSecond, per := Second,
              url := config.MoonbeamUrl }),
        watchers.celo.map (fun c =>
            { chain := c.Name, rate := config.CeloRequestsPerSecond, per := Second,
              url := config.CeloUrl }),
        watchers.optimism.map (fun c =>
            { chain := c.Name, rate := config.OptimismRequestsPerSecond, per := Second,
              url := config.OptimismUrl }),
        watchers.arbitrum.map (fun c =>
            { chain := c.Name, rate := config.ArbitrumRequestsPerSecond, per := Second,
              url := config.ArbitrumUrl }) ]
      Q _ _ _ _ _ hJ hfatal hpanic ?_ ?_
    · intro v m w m1 _ hw
      rw [Builder.CreateOasisWatcher_eq] at hw
      obtain ⟨_, _, hw⟩ := Builder.CreateEvmStandardWatcher_returned _ _ _ _ _ _ _ _ _ hw
      subst hw
      simp [wiringOf, ContractWatcher.blockchain, ContractWatcher.limiter,
        ContractWatcher.client, hrate, perChainBudget]
    intro r m hJ
    refine wired_step wiringOf
      (fun c : WatcherBlockchainAddresses =>
        { chain := c.Name, rate := config.MoonbeamRequestsPerSecond, per := Second,
          url := config.MoonbeamUrl })
      (expectedWiring watchers config)
      [ watchers.celo.map (fun c =>
            { chain := c.Name, rate := config.CeloRequestsPerSecond, per := Second,
              url := config.CeloUrl }),
        watchers.optimism.map (fun c =>
            { chain := c.Name, rate := config.OptimismRequestsPerSecond, per := Second,
              url := config.OptimismUrl }),
        watchers.arbitrum.map (fun c =>
            { chain := c.Name, rate := config.ArbitrumRequestsPerSecond, per := Second,
              url := config.ArbitrumUrl }) ]
      Q _ _ _ _ _ hJ hfatal hpanic ?_ ?_
    · intro v m w m1 _ hw
      rw [Builder.CreateMoonbeamWatcher_eq] at hw
      obtain ⟨_, _, hw⟩ := Builder.CreateEvmStandardWatcher_returned _ _ _ _ _ _ _ _ _ hw
      subst hw
      simp [wiringOf, ContractWatcher.blockchain, ContractWatcher.limiter,
        ContractWatcher.client, hrate, perChainBudget]
    intro r m hJ
    refine wired_step wiringOf
      (fun c : WatcherBlockchainAddresses =>
        { chain := c.Name, rate := config.CeloRequestsPerSecond, per := Second,
          url := config.CeloUrl })
      (expectedWiring watchers config)
      [ watchers.optimism.map (fun c =>
            { chain := c.Name, rate := config.OptimismRequestsPerSecond, per := Second,
              url := config.OptimismUrl }),
        watchers.arbitrum.map (fun c =>
            { chain := c.Name, rate := config.ArbitrumRequestsPerSecond, per := Second,
              url := config.ArbitrumUrl }) ]
      Q _ _ _ _ _ hJ hfatal hpanic ?_ ?_
    · intro v m w m1 _ hw
      rw [Builder.CreateCeloWatcher_eq] at hw
      obtain ⟨_, _, hw⟩ := Builder.CreateEvmStandardWatcher_returned _ _ _ _ _ _ _ _ _ hw
      subst hw
      simp [wiringOf, ContractWatcher.blockchain, ContractWatcher.limiter,
        ContractWatcher.client, hrate, perChainBudget]
    intro r m hJ
    refine wired_step wiringOf
      (fun c : WatcherBlockchainAddresses =>
        { chain := c.Name, rate := config.OptimismRequestsPerSecond, per := Second,
          url := config.OptimismUrl })
      (expectedWiring watchers config)
      [ watchers.arbitrum.map (fun c =>
            { chain := c.Name, rate := config.ArbitrumRequestsPerSecond, per := Second,
              url := config.ArbitrumUrl }) ]
      Q _ _ _ _ _ hJ hfatal hpanic ?_ ?_
    · intro v m w m1 _ hw
      rw [Builder.CreateOptimismWatcher_eq] at hw
      obtain ⟨_, _, hw⟩ := Builder.CreateEvmStandardWatcher_returned _ _ _ _ _ _ _ _ _ hw
      subst hw
      simp [wiringOf, ContractWatcher.blockchain, ContractWatcher.limiter,
        ContractWatcher.client, hrate, perChainBudget]
    intro r m hJ
    refine wired_step wiringOf
      (fun c : WatcherBlockchainAddresses =>
        { chain := c.Name, rate := config.ArbitrumRequestsPerSecond, per := Second,
          url := config.ArbitrumUrl })
      (expectedWiring watchers config)
      []
      Q _ _ _ _ _ hJ hfatal hpanic ?_ ?_
    · intro v m w m1 _ hw
      rw [Builder.CreateOptimismWatcher_eq] at hw
      obtain ⟨_, _, hw⟩ := Builder.CreateEvmStandardWatcher_returned _ _ _ _ _ _ _ _ _ hw
      subst hw
      simp [wiringOf, ContractWatcher.blockchain, ContractWatcher.limiter,
        ContractWatcher.client, hrate, perChainBudget]
    intro r m hJ
    refine hret r m ?_
    simpa using hJ

end Service

namespace Service

open Watcher

end Service
/-! ## Theorems: Run -/

namespace Service

open Watcher

/-- The three outcomes of newAlertClient. -/
theorem newAlertClient_cases (w : World) (settings : RunSettings) :
    newAlertClient w settings = ([Event.NewDummyClient], true) ∨
    newAlertClient w settings =
      ([Event.NewAlertService settings.Environment settings.AlertApiKey
        settings.AlertEnabled], true) ∨
    newAlertClient w settings =
      ([Event.NewAlertService settings.Environment settings.AlertApiKey
        settings.AlertEnabled, Event.Fatal "Error creating alert client"], false) := by
  unfold newAlertClient
  cases settings.AlertEnabled with
  | false => exact Or.inl rfl
  | true =>
    cases w.alertService with
    | none => exact Or.inr (Or.inl rfl)
    | some e => exact Or.inr (Or.inr rfl)

/-- The two shapes of a run: after the creation of the root context and some
start-up calls, either a fatal log or a panic ends the process, or the watchers
were created and Run goes on from the creation of the processor to its end. -/
theorem run_cases (w : World) :
    ∃ pre : List Event, (∀ e ∈ pre, e.isStartup = true) ∧
      ((∃ last, (∃ msg, last = Event.Fatal msg ∨ last = Event.Panic msg) ∧
          Run w = Event.ContextWithCancel 0 :: (pre ++ [last])) ∨
       (∃ ws settings, Run w =
          Event.ContextWithCancel 0 :: (pre ++ runFromProcessor ws settings w.wake))) := by
  unfold Run
  cases hc : w.configNew with
  | error e =>
    exact ⟨[Event.ConfigNew 0], by simp [Event.isStartup],
      Or.inl ⟨_, ⟨_, Or.inl rfl⟩, rfl⟩⟩
  | ok cs =>
    obtain ⟨config, settings⟩ := cs
    cases hd : w.dbNew with
    | some e =>
      exact ⟨[Event.ConfigNew 0, Event.LoggerNew "wormhole-explorer-contract-watcher" settings.LogLevel, Event.Log "INFO" "Starting wormhole-explorer-contract-watcher ...", Event.DbNew 0 settings.MongoURI settings.MongoDatabase],
        by simp [Event.isStartup], Or.inl ⟨_, ⟨_, Or.inl rfl⟩, rfl⟩⟩
    | none =>
      rcases newAlertClient_cases w settings with ha | ha | ha
      · cases hw : newWatchers w.consts config { id := 2 } { id := 1 } { id := 0 } 0 with
        | fatal msg =>
          refine ⟨[Event.ConfigNew 0, Event.LoggerNew "wormhole-explorer-contract-watcher" settings.LogLevel, Event.Log "INFO" "Starting wormhole-explorer-contract-watcher ...", Event.DbNew 0 settings.MongoURI settings.MongoDatabase,
            Event.NewHealthChecks 0, Event.NewPrometheusMetrics settings.Environment, Event.NewDummyClient,
            Event.NewRepository], by simp [Event.isStartup],
            Or.inl ⟨Event.Fatal msg, ⟨msg, Or.inl rfl⟩, ?_⟩⟩
          simp [newHealthChecks, ha, hw]
        | panic msg =>
          refine ⟨[Event.ConfigNew 0,
            Event.LoggerNew "wormhole-explorer-contract-watcher" settings.LogLevel,
            Event.Log "INFO" "Starting wormhole-explorer-contract-watcher ...",
            Event.DbNew 0 settings.MongoURI settings.MongoDatabase,
            Event.NewHealthChecks 0, Event.NewPrometheusMetrics settings.Environment,
            Event.NewDummyClient, Event.NewRepository], by simp [Event.isStartup],
            Or.inl ⟨Event.Panic msg, ⟨msg, Or.inr rfl⟩, ?_⟩⟩
          simp [newHealthChecks, ha, hw, handleExit]
        | returned ws n1 =>
          refine ⟨[Event.ConfigNew 0, Event.LoggerNew "wormhole-explorer-contract-watcher" settings.LogLevel, Event.Log "INFO" "Starting wormhole-explorer-contract-watcher ...", Event.DbNew 0 settings.MongoURI settings.MongoDatabase,
            Event.NewHealthChecks 0, Event.NewPrometheusMetrics settings.Environment, Event.NewDummyClient,
            Event.NewRepository], by simp [Event.isStartup], Or.inr ⟨ws, settings, ?_⟩⟩
          simp [newHealthChecks, ha, hw, runFromProcessor, handleExit]
      · cases hw : newWatchers w.consts config { id := 2 } { id := 1 } { id := 0 } 0 with
        | fatal msg =>
          refine ⟨[Event.ConfigNew 0, Event.LoggerNew "wormhole-explorer-contract-watcher" settings.LogLevel, Event.Log "INFO" "Starting wormhole-explorer-contract-watcher ...", Event.DbNew 0 settings.MongoURI settings.MongoDatabase,
            Event.NewHealthChecks 0, Event.NewPrometheusMetrics settings.Environment,
            Event.NewAlertService settings.Environment settings.AlertApiKey
              settings.AlertEnabled, Event.NewRepository],
            by simp [Event.isStartup], Or.inl ⟨Event.Fatal msg, ⟨msg, Or.inl rfl⟩, ?_⟩⟩
          simp [newHealthChecks, ha, hw]
        | panic msg =>
          refine ⟨[Event.ConfigNew 0,
            Event.LoggerNew "wormhole-explorer-contract-watcher" settings.LogLevel,
            Event.Log "INFO" "Starting wormhole-explorer-contract-watcher ...",
            Event.DbNew 0 settings.MongoURI settings.MongoDatabase,
            Event.NewHealthChecks 0, Event.NewPrometheusMetrics settings.Environment,
            Event.NewAlertService settings.Environment settings.AlertApiKey
              settings.AlertEnabled, Event.NewRepository],
            by simp [Event.isStartup], Or.inl ⟨Event.Panic msg, ⟨msg, Or.inr rfl⟩, ?_⟩⟩
          simp [newHealthChecks, ha, hw, handleExit]
        | returned ws n1 =>
          refine ⟨[Event.ConfigNew 0, Event.LoggerNew "wormhole-explorer-contract-watcher" settings.LogLevel, Event.Log "INFO" "Starting wormhole-explorer-contract-watcher ...", Event.DbNew 0 settings.MongoURI settings.MongoDatabase,
            Event.NewHealthChecks 0, Event.NewPrometheusMetrics settings.Environment,
            Event.NewAlertService settings.Environment settings.AlertApiKey
              settings.AlertEnabled, Event.NewRepository],
            by simp [Event.isStartup], Or.inr ⟨ws, settings, ?_⟩⟩
          simp [newHealthChecks, ha, hw, runFromProcessor, handleExit]
      · refine ⟨[Event.ConfigNew 0, Event.LoggerNew "wormhole-explorer-contract-watcher" settings.LogLevel, Event.Log "INFO" "Starting wormhole-explorer-contract-watcher ...", Event.DbNew 0 settings.MongoURI settings.MongoDatabase,
          Event.NewHealthChecks 0, Event.NewPrometheusMetrics settings.Environment,
          Event.NewAlertService settings.Environment settings.AlertApiKey
              settings.AlertEnabled], by simp [Event.isStartup],
          Or.inl ⟨Event.Fatal "Error creating alert client", ⟨_, Or.inl rfl⟩, ?_⟩⟩
        simp [newHealthChecks, ha]

/-- A start-up call is none of the calls the ordering is about. -/
theorem isStartup_not_other (e : Event) (h : e.isStartup = true) :
    e.isContextCreate = false ∧ e.isShutdown = false ∧
    (∀ ctx, e ≠ Event.ProcessorStart ctx) ∧ (∀ wake, e ≠ Event.Select wake) := by
  cases e <;> simp [Event.isStartup, Event.isContextCreate, Event.isShutdown] at h ⊢

/-- C12: Run creates exactly one cancellation context, as its first call, and
the context it passes to processor.Start is that one; when it reaches the wait
for SIGINT, SIGTERM or the root context being done, the calls after the wait
are, in this order, the cancellation of that context, processor.Close, the
closing of the database connection and the stopping of the HTTP server, and
none of these four calls is made before the wait, while processor.Start and
the registration for SIGINT and SIGTERM are. -/
theorem run_shutdown_order (w : World) :
    ((Run w).filter Event.isContextCreate = [Event.ContextWithCancel 0] ∧
      (Run w).head? = some (Event.ContextWithCancel 0)) ∧
    (∀ ctx, Event.ProcessorStart ctx ∈ Run w → Event.ContextWithCancel ctx ∈ Run w) ∧
    (∀ wake, Event.Select wake ∈ Run w →
      ∃ pre, (Run w).filter (fun e => !e.isLog) =
          pre ++ [Event.Select wake, Event.RootCtxCancel 0, Event.ProcessorClose,
            Event.DbClose, Event.ServerStop] ∧
        Event.ProcessorStart 0 ∈ pre ∧
        Event.SignalNotify [Signal.SIGINT, Signal.SIGTERM] ∈ pre ∧
        ∀ e ∈ pre, e.isShutdown = false) := by
  obtain ⟨pre, hpre, hrun⟩ := run_cases w
  have hcc : pre.filter Event.isContextCreate = [] := by
    rw [List.filter_eq_nil_iff]
    intro e he
    rw [(isStartup_not_other e (hpre e he)).1]
    simp
  have hstart : ∀ ctx, Event.ProcessorStart ctx ∉ pre := fun ctx hin =>
    (isStartup_not_other _ (hpre _ hin)).2.2.1 ctx rfl
  have hsel : ∀ wake, Event.Select wake ∉ pre := fun wake hin =>
    (isStartup_not_other _ (hpre _ hin)).2.2.2 wake rfl
  have hwl : ∀ x : Wake, ∃ l m, wakeLog x = Event.Log l m := by
    intro x
    cases x <;> exact ⟨_, _, rfl⟩
  rcases hrun with ⟨last, ⟨msg, hlast⟩, hrun⟩ | ⟨ws, settings, hrun⟩
  · rw [hrun]
    rcases hlast with hlast | hlast
    · subst hlast
      refine ⟨⟨?_, rfl⟩, ?_, ?_⟩
      · simp [List.filter_cons, List.filter_append, hcc, Event.isContextCreate]
      · intro ctx h
        simp at h
        exact absurd h (hstart ctx)
      · intro wake h
        simp at h
        exact absurd h (hsel wake)
    · subst hlast
      refine ⟨⟨?_, rfl⟩, ?_, ?_⟩
      · simp [List.filter_cons, List.filter_append, hcc, Event.isContextCreate]
      · intro ctx h
        simp at h
        exact absurd h (hstart ctx)
      · intro wake h
        simp at h
        exact absurd h (hsel wake)
  · rw [hrun]
    obtain ⟨l, m, hlm⟩ := hwl w.wake
    refine ⟨⟨?_, rfl⟩, ?_, ?_⟩
    · simp [List.filter_cons, List.filter_append, hcc, Event.isContextCreate,
        runFromProcessor, hlm]
    · intro ctx h
      simp [runFromProcessor, hlm] at h
      rcases h with h | h
      · exact absurd h (hstart ctx)
      · subst h
        simp
    · intro wake h
      simp [runFromProcessor, hlm] at h
      rcases h with h | h
      · exact absurd h (hsel wake)
      · subst h
        refine ⟨Event.ContextWithCancel 0 :: (pre.filter (fun e => !e.isLog) ++
          [Event.NewProcessor ws, Event.ProcessorStart 0,
            Event.NewServer settings.Port settings.PprofEnabled ["health.Mongo"],
            Event.ServerStart, Event.SignalNotify [Signal.SIGINT, Signal.SIGTERM]]),
          ?_, ?_, ?_, ?_⟩
        · simp [List.filter_cons, List.filter_append, Event.isLog, runFromProcessor, hlm]
        · simp
        · simp
        · intro e he
          simp at he
          rcases he with he | ⟨he, _⟩ | he | he | he | he | he
          · subst he; rfl
          · exact (isStartup_not_other e (hpre e he)).2.1
          all_goals (subst he; rfl)

/-- Witness of C12: a run on mainnet that is ended by SIGTERM. -/
theorem run_shutdown_order_witness :
    ∃ pre, (Run Sample.world).filter (fun e => !e.isLog) =
        pre ++ [Event.Select (Wake.signal Signal.SIGTERM), Event.RootCtxCancel 0,
          Event.ProcessorClose, Event.DbClose, Event.ServerStop] ∧
      Event.ProcessorStart 0 ∈ pre ∧
      Event.SignalNotify [Signal.SIGINT, Signal.SIGTERM] ∈ pre ∧
      ∀ e ∈ pre, e.isShutdown = false :=
  (run_shutdown_order Sample.world).2.2 (Wake.signal Signal.SIGTERM) (by decide)

end Service
